import Mathlib

/-!
Shallow embedding of the CV2 image filter & geometric transform engine
(`src/utils/perspective.ts`, `src/types.ts`).

Modelling conventions:
* JavaScript `number` is modelled exactly as `ℚ` where the source only uses
  field operations and comparisons, and as `ℝ` where the source uses
  transcendental functions (`Math.exp`, `Math.sin`, `Math.cos`, `Math.sqrt`,
  `Math.pow`, `Math.log`).
* A `Uint8ClampedArray` store clamps to `[0,255]` and rounds half to even
  (ECMAScript `ToUint8Clamp`); `Math.round x = ⌊x + 1/2⌋`.
* Pixel buffers are flat RGBA lists of bytes, as in the source.
* Calls into the HTML canvas 2D context that are not plain pixel loops
  (`drawImage`, `fillCircle` via `arc`, CSS `ctx.filter`, gradients,
  `strokeRect`, scaled redraws) are represented one-for-one by fields of an
  abstract `RenderOps` interpretation; theorems quantify over it.
* `Math.random()` is modelled by an explicit stream `ℕ → ℚ` consumed through
  a cursor that is threaded in source order.
-/

namespace CV2

/-- JS `Math.round`: floor of `x + 1/2` (halves round toward +∞). -/
def jsRound {α : Type} [LinearOrderedField α] [FloorRing α] (x : α) : ℤ :=
  ⌊x + 1/2⌋

/-- Truncation toward zero, as used by JS `| 0` and `%` on in-range values. -/
def jsTrunc {α : Type} [LinearOrderedField α] [FloorRing α] (x : α) : ℤ :=
  if 0 ≤ x then ⌊x⌋ else ⌈x⌉

/-- JS remainder operator `%` (sign follows the dividend). -/
def jsMod {α : Type} [LinearOrderedField α] [FloorRing α] (a b : α) : α :=
  a - b * (jsTrunc (a / b) : α)

/-- Round half to even, the rounding mode of `Uint8ClampedArray` stores. -/
def roundHE {α : Type} [LinearOrderedField α] [FloorRing α] (x : α) : ℤ :=
  if x - ⌊x⌋ < 1/2 then ⌊x⌋
  else if 1/2 < x - ⌊x⌋ then ⌊x⌋ + 1
  else if Even ⌊x⌋ then ⌊x⌋ else ⌊x⌋ + 1

/-- Clamp to `[0, 255]`. -/
def clamp255 {α : Type} [LinearOrderedField α] (x : α) : α :=
  max 0 (min 255 x)

/-- A `Uint8ClampedArray` element store: clamp to `[0,255]`, round half to
even, yielding a byte. -/
def u8 {α : Type} [LinearOrderedField α] [FloorRing α] (x : α) : ℕ :=
  (roundHE (clamp255 x)).toNat

/-- Clamp to `[0,1]`, used by `applyLevels`. -/
def clamp01 {α : Type} [LinearOrderedField α] (x : α) : α :=
  max 0 (min 1 x)

/-! ## Pixel buffers

`ImageData.data` is a flat interleaved RGBA byte array of length
`width * height * 4`. -/

structure Canvas where
  width : ℕ
  height : ℕ
  data : List ℕ
deriving DecidableEq

/-- `(List.range n).map f`: the result of a loop writing `f j` at index `j`. -/
def buildData (n : ℕ) (f : ℕ → ℕ) : List ℕ :=
  (List.range n).map f

/-- A per-pixel loop that rewrites only the R/G/B channels, leaving the
alpha byte (index `j` with `j % 4 = 3`) untouched; `g` computes the new
value of a non-alpha index. -/
def rgbMapIdx (g : ℕ → ℕ) (d : List ℕ) : List ℕ :=
  buildData d.length (fun j => if j % 4 = 3 then d.getD j 0 else g j)

/-- Write the three color bytes of pixel `p` (`List.set` ignores
out-of-range indices, like a typed-array store past the end). -/
def setRGB (d : List ℕ) (p r g b : ℕ) : List ℕ :=
  ((d.set (4*p) r).set (4*p+1) g).set (4*p+2) b

/-- Number of pixels of a flat RGBA buffer. -/
def pixelCount (d : List ℕ) : ℕ := d.length / 4

/-- A sequential per-pixel loop threading a state `σ` (e.g. the position in
the `Math.random()` stream), where each step writes only the R/G/B bytes of
its own pixel. `f` receives the state, the pixel index and the current
buffer. -/
def rgbFoldSt {σ : Type} (f : σ → ℕ → List ℕ → (ℕ × ℕ × ℕ) × σ)
    (s0 : σ) (d : List ℕ) : List ℕ × σ :=
  (List.range (pixelCount d)).foldl
    (fun acc p =>
      let v := f acc.2 p acc.1
      (setRGB acc.1 p v.1.1 v.1.2.1 v.1.2.2, v.2))
    (d, s0)

/-- As `rgbFoldSt`, but over an explicit list of pixel indices. -/
def rgbFoldStOver {σ : Type} (ps : List ℕ)
    (f : σ → ℕ → List ℕ → (ℕ × ℕ × ℕ) × σ) (s0 : σ) (d : List ℕ) :
    List ℕ × σ :=
  ps.foldl
    (fun acc p =>
      let v := f acc.2 p acc.1
      (setRGB acc.1 p v.1.1 v.1.2.1 v.1.2.2, v.2))
    (d, s0)

/-- Byte at flat index `j` (reads past the end give `undefined`, which all
uses coerce to `0`). -/
def byteAt (d : List ℕ) (j : ℕ) : ℕ := d.getD j 0

/-- The `Math.random()` stream: an arbitrary sequence of draws, consumed
through a cursor threaded in source order. -/
def Rand : Type := ℕ → ℚ

/-! ## `LayerFilters` and `defaultFilters` (src/types.ts) -/

structure LayerFilters where
  lineArt : Bool
  lineArtBlend : ℚ
  lineArtThreshold : ℚ
  lineArtColorBlend : ℚ
  findEdges : Bool
  findEdgesBlend : ℚ
  findEdgesStrength : ℚ
  blurType : ℕ
  blurRadius : ℚ
  blurAngle : ℚ
  noiseType : ℕ
  noiseAmount : ℚ
  noiseDensity : ℚ
  posterize : ℚ
  brightness : ℚ
  contrast : ℚ
  invert : Bool
  levels : Bool
  levelsBlack : ℚ
  levelsWhite : ℚ
  levelsGamma : ℚ
  levelsMono : Bool
  halftone : Bool
  halftoneSize : ℚ
  halftoneAngle : ℚ
  halftoneColorMode : ℕ
  halftoneColorBlend : ℚ
  halftoneBlendMode : ℕ
  hueShift : ℚ
  saturation : ℚ
  colorTempShift : ℚ
  posterizeStyle : ℕ
  posterizeColorShift : ℚ
  frostedGlass : Bool
  frostedGlassAmount : ℚ
  strokeEnabled : Bool
  strokeColor : String
  strokeWidth : ℕ
  strokeInner : Bool
  strokeOuter : Bool
  gameFilter : ℕ
  gameFilterIntensity : ℚ
  facetFilter : ℕ
  facetSize : ℚ
  oilPaint : Bool
  oilPaintRadius : ℚ
  oilPaintLevels : ℕ
  metalFilter : Bool
  metalIntensity : ℚ
  paletteKnife : Bool
  paletteKnifeLength : ℚ
  paletteKnifeDirection : ℚ
  colorSepEnabled : Bool
  colorSepR : ℚ
  colorSepG : ℚ
  colorSepB : ℚ
  colorSepMix : ℚ
  textureFilter : ℕ
  textureIntensity : ℚ
  gradientFade : Bool
  gradientFadeDirection : ℕ
  gradientFadeAmount : ℚ
  channelShiftRG : ℚ
  channelShiftYB : ℚ
  channelShiftPC : ℚ

def defaultFilters : LayerFilters where
  lineArt := false
  lineArtBlend := 1/2
  lineArtThreshold := 50
  lineArtColorBlend := 0
  findEdges := false
  findEdgesBlend := 1/2
  findEdgesStrength := 1
  blurType := 0
  blurRadius := 0
  blurAngle := 0
  noiseType := 0
  noiseAmount := 0
  noiseDensity := 100
  posterize := 0
  brightness := 0
  contrast := 0
  invert := false
  levels := false
  levelsBlack := 0
  levelsWhite := 255
  levelsGamma := 1
  levelsMono := false
  halftone := false
  halftoneSize := 6
  halftoneAngle := 45
  halftoneColorMode := 0
  halftoneColorBlend := 0
  halftoneBlendMode := 0
  hueShift := 0
  saturation := 0
  colorTempShift := 0
  posterizeStyle := 0
  posterizeColorShift := 0
  frostedGlass := false
  frostedGlassAmount := 8
  strokeEnabled := false
  strokeColor := "#000000"
  strokeWidth := 3
  strokeInner := false
  strokeOuter := true
  gameFilter := 0
  gameFilterIntensity := 1
  facetFilter := 0
  facetSize := 15
  oilPaint := false
  oilPaintRadius := 4
  oilPaintLevels := 20
  metalFilter := false
  metalIntensity := 1
  paletteKnife := false
  paletteKnifeLength := 20
  paletteKnifeDirection := 45
  colorSepEnabled := false
  colorSepR := 8
  colorSepG := 8
  colorSepB := 8
  colorSepMix := 1
  textureFilter := 0
  textureIntensity := 1
  gradientFade := false
  gradientFadeDirection := 0
  gradientFadeAmount := 50
  channelShiftRG := 0
  channelShiftYB := 0
  channelShiftPC := 0

/-! ## Abstract canvas 2D rendering primitives

The source occasionally leaves pure pixel arithmetic and calls the HTML
canvas rendering API. Each such call shape is represented by one field of
`RenderOps`; theorems hold for every interpretation of these primitives. -/

structure RenderOps where
  /-- `ctx.globalAlpha = a; ctx.drawImage(src, dx, dy)` onto `dst`. -/
  drawImageAlpha : Canvas → Canvas → ℝ → ℝ → ℝ → Canvas
  /-- `ctx.globalAlpha = a; ctx.drawImage(src, dx, dy, dw, dh)` onto `dst`. -/
  drawImageScaledAlpha : Canvas → Canvas → ℝ → ℝ → ℝ → ℝ → ℝ → Canvas
  /-- `ctx.filter = 'blur(px) …brightness(b)'; ctx.drawImage(c, 0, 0)` of a
  canvas onto itself. -/
  cssFilterSelfDraw : Canvas → ℝ → ℝ → Canvas
  /-- `ctx.fillStyle = rgb(...); ctx.beginPath(); ctx.arc(cx, cy, r, 0, 2π);
  ctx.fill()`. -/
  fillCircle : Canvas → ℕ × ℕ × ℕ → ℝ → ℝ → ℝ → Canvas
  /-- `ctx.strokeStyle = color; ctx.lineWidth = lw;
  ctx.strokeRect(x, y, rw, rh)`. -/
  strokeRect : Canvas → String → ℝ → ℝ → ℝ → ℝ → ℝ → Canvas
  /-- `ctx.globalCompositeOperation = 'screen'; ctx.globalAlpha = a;
  ctx.drawImage(src, 0, 0)` onto `dst`. -/
  screenDrawAlpha : Canvas → Canvas → ℝ → Canvas
  /-- the CRT radial-gradient vignette fill of `applyGameFilter` mode 2. -/
  vignette : Canvas → ℝ → Canvas
  /-- draw a canvas onto a fresh `tw × th` canvas (`smooth` is the
  `imageSmoothingEnabled` flag). -/
  drawScaled : Canvas → ℕ → ℕ → Bool → Canvas

/-- A concrete (computable) interpretation of the rendering primitives,
used only to instantiate closed statements. -/
def trivialRender : RenderOps where
  drawImageAlpha := fun d _ _ _ _ => d
  drawImageScaledAlpha := fun d _ _ _ _ _ _ => d
  cssFilterSelfDraw := fun c _ _ => c
  fillCircle := fun c _ _ _ _ => c
  strokeRect := fun c _ _ _ _ _ _ => c
  screenDrawAlpha := fun d _ _ => d
  vignette := fun c _ => c
  drawScaled := fun c _ _ _ => c

/-! ## Color space helpers (rgbToHsl / hslToRgb) -/

/-- `rgbToHsl` of the source: bytes in, `(h ∈ [0,360), s, l ∈ [0,1])` out. -/
def rgbToHsl (r g b : ℚ) : ℚ × ℚ × ℚ :=
  let r := r / 255
  let g := g / 255
  let b := b / 255
  let mx := max r (max g b)
  let mn := min r (min g b)
  let l := (mx + mn) / 2
  if mx = mn then (0, 0, l)
  else
    let d := mx - mn
    let s := if 1/2 < l then d / (2 - mx - mn) else d / (mx + mn)
    let h :=
      if mx = r then ((g - b) / d + (if g < b then 6 else 0)) / 6
      else if mx = g then ((b - r) / d + 2) / 6
      else ((r - g) / d + 4) / 6
    (h * 360, s, l)

/-- the `hue2rgb` helper of `hslToRgb`. -/
def hue2rgb (p q t : ℚ) : ℚ :=
  let t := if t < 0 then t + 1 else t
  let t := if 1 < t then t - 1 else t
  if t < 1/6 then p + (q - p) * 6 * t
  else if t < 1/2 then q
  else if t < 2/3 then p + (q - p) * (2/3 - t) * 6
  else p

/-- `hslToRgb` of the source: returns rounded byte values. -/
def hslToRgb (h s l : ℚ) : ℤ × ℤ × ℤ :=
  let h := jsMod (jsMod h 360 + 360) 360
  let h := h / 360
  if s = 0 then
    let v := jsRound (l * 255)
    (v, v, v)
  else
    let q := if l < 1/2 then l * (1 + s) else l + s - l * s
    let p := 2 * l - q
    (jsRound (hue2rgb p q (h + 1/3) * 255),
     jsRound (hue2rgb p q h * 255),
     jsRound (hue2rgb p q (h - 1/3) * 255))

/-- `(r, g, b)` bytes of pixel `p`. -/
def rgbAt (d : List ℕ) (p : ℕ) : ℕ × ℕ × ℕ :=
  (byteAt d (4*p), byteAt d (4*p+1), byteAt d (4*p+2))

/-- Select channel `ch ∈ {0,1,2}` of an rgb triple. -/
def chanOf (v : ℕ × ℕ × ℕ) (ch : ℕ) : ℕ :=
  match ch with
  | 0 => v.1
  | 1 => v.2.1
  | _ => v.2.2

/-- A per-pixel loop computing a new rgb triple from the pixel's own rgb
bytes (and its index), leaving alpha untouched. -/
def rgbPointwise (f : ℕ → ℕ × ℕ × ℕ → ℕ × ℕ × ℕ) (d : List ℕ) : List ℕ :=
  rgbMapIdx (fun j => chanOf (f (j/4) (rgbAt d (j/4))) (j % 4)) d

/-! ## Brightness / Contrast -/

/-- `applyBrightnessContrast`: per channel
`clamp(f * (v - 128) + 128 + brightness)` with
`f = 259(contrast + 255) / (255(259 - contrast))`. -/
def applyBrightnessContrast (c : Canvas) (brightness contrast : ℚ) : Canvas :=
  let b := brightness
  let f := (259 * (contrast + 255)) / (255 * (259 - contrast))
  let d' := rgbMapIdx
    (fun j => u8 (max 0 (min 255 (f * ((byteAt c.data j : ℚ) - 128) + 128 + b))))
    c.data
  { c with data := d' }

/-! ## Blur (typed: gaussian / box / motion / radial) -/

/-- Clamp an offset sample coordinate to `[0, n-1]`:
`Math.max(0, Math.min(n - 1, x + k - r))`. -/
def clampIdx (n x k r : ℕ) : ℕ :=
  (max 0 (min ((n:ℤ) - 1) ((x:ℤ) + k - r))).toNat

/-- Gaussian kernel half-width `Math.ceil(radius * 2.5)`. -/
noncomputable def gaussR (radius : ℚ) : ℕ := (⌈(radius:ℝ) * 2.5⌉).toNat

/-- Unnormalized Gaussian weight `exp(-(k-r)² / (2σ²))`, `σ = radius`. -/
noncomputable def gaussWeight (radius : ℚ) (k : ℕ) : ℝ :=
  Real.exp (-(((k:ℝ) - gaussR radius)^2) / (2 * (radius:ℝ)^2))

noncomputable def gaussSum (radius : ℚ) : ℝ :=
  Finset.sum (Finset.range (2 * gaussR radius + 1)) (gaussWeight radius)

/-- Normalized kernel entry (`kernel[i] /= sum`). -/
noncomputable def gaussKernel (radius : ℚ) (k : ℕ) : ℝ :=
  gaussWeight radius k / gaussSum radius

/-- One separable pass of the manual Gaussian convolution; all four
channels (including alpha) are convolved, with edge-clamped sampling. -/
noncomputable def gaussBlurPass (w h : ℕ) (radius : ℚ) (horizontal : Bool)
    (d : List ℕ) : List ℕ :=
  buildData d.length (fun j =>
    u8 (Finset.sum (Finset.range (2 * gaussR radius + 1)) (fun k =>
      (byteAt d ((if horizontal
                  then (j/4/w)*w + clampIdx w (j/4 % w) k (gaussR radius)
                  else (clampIdx h (j/4/w) k (gaussR radius))*w + (j/4 % w))*4
                 + j % 4) : ℝ)
        * gaussKernel radius k)))

/-- Blur type 1: horizontal then vertical Gaussian pass. -/
noncomputable def gaussianBlur (c : Canvas) (radius : ℚ) : Canvas :=
  let d' := gaussBlurPass c.width c.height radius false
    (gaussBlurPass c.width c.height radius true c.data)
  { c with data := d' }

/-- One pass of the manual box blur: averages the R/G/B channels over
`2r+1` edge-clamped samples; the alpha byte is not written. -/
def boxBlurPass (w h : ℕ) (r : ℕ) (horizontal : Bool) (d : List ℕ) :
    List ℕ :=
  let cnt := 2*r + 1
  rgbMapIdx (fun j =>
    let p := j / 4
    let x := p % w
    let y := p / w
    let ch := j % 4
    u8 ((Finset.sum (Finset.range cnt) (fun k =>
      byteAt d ((if horizontal then y*w + clampIdx w x k r
                 else (clampIdx h y k r)*w + x)*4 + ch)) : ℚ) / cnt)) d

/-- Blur type 2: horizontal then vertical box pass, `r = Math.round(radius)`. -/
def boxBlur (c : Canvas) (radius : ℚ) : Canvas :=
  let r := (jsRound radius).toNat
  let d' := boxBlurPass c.width c.height r false
    (boxBlurPass c.width c.height r true c.data)
  { c with data := d' }

/-- `mSteps = Math.min(Math.round(radius * 2), 40)`. -/
def motionSteps (radius : ℚ) : ℕ := min (jsRound (radius * 2)).toNat 40

/-- The `t` offset multiplier of accumulation step `i` of the motion blur:
`t = (i/mSteps - 0.5) * radius * (stepScale/radius || 1)` with
`stepScale = radius*2/mSteps`. -/
def motionT (radius : ℚ) (i : ℕ) : ℚ :=
  let N := motionSteps radius
  let stepScale := radius * 2 / N
  let g := stepScale / radius
  ((i:ℚ) / N - 1/2) * radius * (if g = 0 then 1 else g)

/-- The motion-blur accumulation schedule: for each step the
`(globalAlpha, dx, dy)` of its `drawImage` call. -/
noncomputable def motionDraws (radius angle : ℚ) : List (ℝ × ℝ × ℝ) :=
  let rad : ℝ := (angle:ℝ) * Real.pi / 180
  let mdx := Real.cos rad
  let mdy := Real.sin rad
  let N := motionSteps radius
  (List.range N).map (fun i =>
    (1 / (N:ℝ), (motionT radius i : ℝ) * mdx, (motionT radius i : ℝ) * mdy))

/-- `ctx.clearRect(0, 0, w, h)`: all bytes to zero. -/
def clearCanvas (c : Canvas) : Canvas :=
  { c with data := List.replicate c.data.length 0 }

/-- Blur type 3: clear, then draw `mSteps` offset copies of the original at
`1/mSteps` opacity each. -/
noncomputable def motionBlur (R : RenderOps) (c : Canvas) (radius angle : ℚ) :
    Canvas :=
  (motionDraws radius angle).foldl
    (fun acc t => R.drawImageAlpha acc c t.1 t.2.1 t.2.2) (clearCanvas c)

/-- `rSteps = Math.min(Math.max(4, Math.round(radius * 1.5)), 30)`. -/
def radialSteps (radius : ℚ) : ℕ :=
  min (max 4 (jsRound (radius * 3/2)).toNat) 30

/-- Blur type 4: `rSteps` centered scaled redraws at `1/rSteps` opacity. -/
def radialDraws (w h : ℕ) (radius : ℚ) : List (ℚ × ℚ × ℚ × ℚ × ℚ) :=
  let N := radialSteps radius
  (List.range N).map (fun i =>
    let sc : ℚ := 1 + ((i:ℚ)/N - 1/2) * (radius / 100)
    (1/(N:ℚ), ((w:ℚ) - w*sc)/2, ((h:ℚ) - h*sc)/2, w*sc, h*sc))

noncomputable def radialBlur (R : RenderOps) (c : Canvas) (radius : ℚ) :
    Canvas :=
  (radialDraws c.width c.height radius).foldl
    (fun acc t =>
      R.drawImageScaledAlpha acc c t.1 t.2.1 t.2.2.1 t.2.2.2.1 t.2.2.2.2)
    (clearCanvas c)

/-- `applyNewBlur`: dispatch on the blur type; `radius ≤ 0` or type 0 is a
no-op, and so is any unknown type (`switch` without default). -/
noncomputable def applyNewBlur (R : RenderOps) (c : Canvas) (type : ℕ)
    (radius angle : ℚ) : Canvas :=
  if radius ≤ 0 ∨ type = 0 then c
  else
    match type with
    | 1 => gaussianBlur c radius
    | 2 => boxBlur c radius
    | 3 => motionBlur R c radius angle
    | 4 => radialBlur R c radius
    | _ => c

/-! ## Noise (typed) -/

/-- Box-Muller Gaussian draw: consumes two stream values,
`sqrt(-2 ln(u1 || 0.001)) * cos(2π u2)`. -/
noncomputable def gaussRand (rand : Rand) (pos : ℕ) : ℝ × ℕ :=
  let u1 := rand pos
  let u2 := rand (pos + 1)
  (Real.sqrt (-2 * Real.log (if u1 = 0 then 1/1000 else (u1:ℝ)))
     * Real.cos (2 * Real.pi * (u2:ℝ)), pos + 2)

/-- `applyNewNoise`: per pixel a density gate draw, then a type-specific
perturbation of the R/G/B channels; second component is the advanced
random-stream cursor. -/
noncomputable def applyNewNoise (rand : Rand) (c : Canvas) (type : ℕ)
    (amount density : ℚ) (pos : ℕ) : Canvas × ℕ :=
  if amount ≤ 0 ∨ type = 0 then (c, pos)
  else
    let strength : ℚ := amount * (51/20)
    let densityF := density / 100
    let run := fun (step : ℕ → ℕ → List ℕ → (ℕ × ℕ × ℕ) × ℕ) =>
      let r := rgbFoldSt step pos c.data
      ({ c with data := r.1 }, r.2)
    match type with
    | 1 => run (fun pos p d =>
        let rgb := rgbAt d p
        if densityF < rand pos then (rgb, pos + 1)
        else
          let g := gaussRand rand (pos + 1)
          let n := g.1 * (strength:ℝ) * (2/5)
          ((u8 ((rgb.1:ℝ) + n), u8 ((rgb.2.1:ℝ) + n), u8 ((rgb.2.2:ℝ) + n)),
            g.2))
    | 2 => run (fun pos p d =>
        let rgb := rgbAt d p
        if densityF < rand pos then (rgb, pos + 1)
        else
          let lum : ℝ :=
            ((rgb.1:ℝ) * (299/1000) + (rgb.2.1:ℝ) * (587/1000)
              + (rgb.2.2:ℝ) * (57/500)) / 255
          let midtoneFactor := 1 - |lum - 1/2| * 2
          let grainStrength :=
            (strength:ℝ) * (1/2) * (3/10 + midtoneFactor * (7/10))
          let g := gaussRand rand (pos + 1)
          let n := g.1 * grainStrength
          ((u8 ((rgb.1:ℝ) + n), u8 ((rgb.2.1:ℝ) + n), u8 ((rgb.2.2:ℝ) + n)),
            g.2))
    | 3 => run (fun pos p d =>
        let rgb := rgbAt d p
        if densityF < rand pos then (rgb, pos + 1)
        else
          let g1 := gaussRand rand (pos + 1)
          let g2 := gaussRand rand g1.2
          let g3 := gaussRand rand g2.2
          let nr := g1.1 * (strength:ℝ) * (1/2)
          let ng := g2.1 * (strength:ℝ) * (1/2)
          let nb := g3.1 * (strength:ℝ) * (1/2)
          ((u8 ((rgb.1:ℝ) + nr), u8 ((rgb.2.1:ℝ) + ng),
            u8 ((rgb.2.2:ℝ) + nb)), g3.2))
    | 4 => run (fun pos p d =>
        let rgb := rgbAt d p
        if densityF < rand pos then (rgb, pos + 1)
        else
          let n := (rand (pos + 1) - 1/2) * strength
          ((u8 ((rgb.1:ℚ) + n), u8 ((rgb.2.1:ℚ) + n), u8 ((rgb.2.2:ℚ) + n)),
            pos + 2))
    | _ => (c, pos)

/-! ## Posterize -/

/-- `applyPosterize`: `round(round(v / step) * step)`, `step = 255/(levels-1)`. -/
def applyPosterize (c : Canvas) (levels : ℚ) : Canvas :=
  let step := 255 / (levels - 1)
  let d' := rgbMapIdx
    (fun j =>
      u8 ((jsRound ((jsRound ((byteAt c.data j : ℚ) / step) : ℚ) * step) : ℚ)))
    c.data
  { c with data := d' }

/-! ## Invert -/

/-- `applyInvert`: `255 - v` on the color channels. -/
def applyInvert (c : Canvas) : Canvas :=
  let d' := rgbMapIdx (fun j => u8 ((255:ℚ) - (byteAt c.data j : ℚ))) c.data
  { c with data := d' }

/-! ## Line art (Sobel grayscale) -/

/-- `applyLineArt`: Sobel threshold to pure black/white with white opaque
borders, optional original-color soft-multiply overlay, alpha restored from
the original, optional full-photo alpha blend on top. -/
noncomputable def applyLineArt (R : RenderOps) (c : Canvas)
    (threshold blend colorBlend : ℚ) : Canvas :=
  let w := c.width
  let h := c.height
  let d := c.data
  let gray : ℕ → ℝ := fun i =>
    (byteAt d (i*4) : ℝ) * (299/1000) + (byteAt d (i*4+1) : ℝ) * (587/1000)
      + (byteAt d (i*4+2) : ℝ) * (57/500)
  let lineV : ℕ → ℕ := fun p =>
    let x := p % w
    let y := p / w
    if x = 0 ∨ x + 1 = w ∨ y = 0 ∨ y + 1 = h then 255
    else
      let gx := -gray (p - w - 1) + gray (p - w + 1)
        - 2 * gray (p - 1) + 2 * gray (p + 1)
        - gray (p + w - 1) + gray (p + w + 1)
      let gy := -gray (p - w - 1) - 2 * gray (p - w) - gray (p - w + 1)
        + gray (p + w - 1) + 2 * gray (p + w) + gray (p + w + 1)
      let mag := Real.sqrt (gx * gx + gy * gy)
      if (threshold:ℝ) < mag then 0 else 255
  let outChan : ℕ → ℕ := fun j =>
    let p := j / 4
    let ch := j % 4
    let lv := lineV p
    if 0 < colorBlend then
      let oR : ℚ := byteAt d (4*p)
      let oG : ℚ := byteAt d (4*p+1)
      let oB : ℚ := byteAt d (4*p+2)
      let lineFactor : ℚ := (lv:ℚ) / 255
      let minColor := (1/5) * colorBlend
      let factor := lineFactor * (1 - minColor) + minColor
      let avgOrig := (oR + oG + oB) / 3
      let satBoost := 1 + colorBlend * (3/10)
      let cR := min 255 ((oR + (oR - avgOrig) * (satBoost - 1)) * factor)
      let cG := min 255 ((oG + (oG - avgOrig) * (satBoost - 1)) * factor)
      let cB := min 255 ((oB + (oB - avgOrig) * (satBoost - 1)) * factor)
      let cc := if ch = 0 then cR else if ch = 1 then cG else cB
      u8 (max 0 (min 255
        ((jsRound ((lv:ℚ) * (1 - colorBlend) + cc * colorBlend) : ℚ))))
    else lv
  let out := buildData d.length
    (fun j => if j % 4 = 3 then byteAt d j else outChan j)
  let c1 := { c with data := out }
  if 0 < blend then R.drawImageAlpha c1 c (blend:ℝ) 0 0 else c1

/-! ## Find edges (colored Sobel) -/

/-- `applyFindEdges`: per-channel Sobel magnitude times `strength`; the
outermost ring keeps zeroed color; alpha everywhere from the source;
optional original blend on top. -/
noncomputable def applyFindEdges (R : RenderOps) (c : Canvas)
    (strength blend : ℚ) : Canvas :=
  let w := c.width
  let h := c.height
  let d := c.data
  let out := buildData d.length (fun j =>
    let p := j / 4
    let x := p % w
    let y := p / w
    let ch := j % 4
    if ch = 3 then byteAt d j
    else if 1 ≤ x ∧ x + 1 < w ∧ 1 ≤ y ∧ y + 1 < h then
      let at' := fun q => (byteAt d (q*4 + ch) : ℝ)
      let tl := at' (p - w - 1)
      let tc := at' (p - w)
      let tr := at' (p - w + 1)
      let ml := at' (p - 1)
      let mr := at' (p + 1)
      let bl := at' (p + w - 1)
      let bc := at' (p + w)
      let br := at' (p + w + 1)
      let gx := -tl + tr - 2*ml + 2*mr - bl + br
      let gy := -tl - 2*tc - tr + bl + 2*bc + br
      u8 (min 255 (Real.sqrt (gx*gx + gy*gy) * (strength:ℝ)))
    else 0)
  let c1 := { c with data := out }
  if 0 < blend then R.drawImageAlpha c1 c (blend:ℝ) 0 0 else c1

/-! ## Levels -/

/-- `range = Math.max(1, white - black)`, the LUT divisor. -/
def levelsRange (black white : ℚ) : ℚ := max 1 (white - black)

/-- One entry of the levels lookup table:
`round(clamp01((i - black)/range)^(1/gamma) * 255)`, stored in a
`Uint8Array`. -/
noncomputable def lutEntry (black white gamma : ℚ) (i : ℕ) : ℕ :=
  let v : ℝ := clamp01 (((i:ℝ) - (black:ℝ)) / (levelsRange black white : ℝ))
  ((jsRound (v ^ ((1:ℝ)/(gamma:ℝ)) * 255)) % 256).toNat

/-- `applyLevels`: per-channel LUT, or luminance-indexed LUT on all three
channels when `mono`. -/
noncomputable def applyLevels (c : Canvas) (black white gamma : ℚ)
    (mono : Bool) : Canvas :=
  let lut := lutEntry black white gamma
  let d := c.data
  let d' := rgbMapIdx (fun j =>
    if mono then
      let p := j / 4
      let g : ℚ := (byteAt d (4*p) : ℚ) * (299/1000)
        + (byteAt d (4*p+1) : ℚ) * (587/1000) + (byteAt d (4*p+2) : ℚ) * (57/500)
      lut (jsRound g).toNat
    else lut (byteAt d j)) d
  { c with data := d' }

/-! ## Halftone -/

/-- Halftone blend-mode arithmetic (`1` overlay, `2` multiply, `3` darken)
between a halftone byte `hv` and the original byte `ov`. -/
def halftoneBlendChan (mode : ℕ) (hv ov : ℕ) : ℚ :=
  match mode with
  | 1 => if ov < 128 then 2 * (ov:ℚ) * hv / 255
         else 255 - 2 * (255 - (ov:ℚ)) * (255 - (hv:ℚ)) / 255
  | 2 => (hv:ℚ) * ov / 255
  | 3 => min (hv:ℚ) (ov:ℚ)
  | _ => hv

/-- `applyHalftone`: white background, rotated dot grid of filled circles,
optional blend-mode and color overlay against the original (both only when
`colorBlend > 0`, which is when the original snapshot exists), alpha
restored from the source. -/
noncomputable def applyHalftone (R : RenderOps) (c : Canvas)
    (dotSize angle : ℚ) (colorMode : ℕ) (colorBlend : ℚ) (blendMode : ℕ) :
    Canvas :=
  let w := c.width
  let h := c.height
  let src := c.data
  let white := { c with data := buildData src.length (fun _ => 255) }
  let rad : ℝ := (angle:ℝ) * Real.pi / 180
  let co := Real.cos rad
  let si := Real.sin rad
  let step : ℝ := (dotSize:ℝ)
  let maxR := step * (1/2)
  let diag := Real.sqrt ((w:ℝ)*w + (h:ℝ)*h)
  let count : ℕ := if 0 < step then (⌈2 * diag / step⌉).toNat else 0
  let drawDot := fun (acc : Canvas) (gyI gxI : ℕ) =>
    let gyv := -diag + (gyI:ℝ) * step
    let gxv := -diag + (gxI:ℝ) * step
    let cx := gxv * co - gyv * si + (w:ℝ)/2
    let cy := gxv * si + gyv * co + (h:ℝ)/2
    let px := jsRound cx
    let py := jsRound cy
    if px < 0 ∨ (w:ℤ) ≤ px ∨ py < 0 ∨ (h:ℤ) ≤ py then acc
    else
      let idx := (py.toNat * w + px.toNat) * 4
      let sr := byteAt src idx
      let sg := byteAt src (idx+1)
      let sb := byteAt src (idx+2)
      let gray : ℝ := (sr:ℝ) * (299/1000) + (sg:ℝ) * (587/1000)
        + (sb:ℝ) * (57/500)
      let darkness := 1 - gray / 255
      let r := maxR * Real.sqrt darkness
      if 3/10 < r then
        R.fillCircle acc (if colorMode = 1 then (sr, sg, sb) else (0, 0, 0))
          cx cy r
      else acc
  let dotted := (List.range count).foldl
    (fun acc gyI => (List.range count).foldl
      (fun acc2 gxI => drawDot acc2 gyI gxI) acc)
    white
  let blended :=
    if 0 < blendMode ∧ 0 < colorBlend then
      let bd := rgbMapIdx (fun j =>
        u8 ((jsRound (halftoneBlendChan blendMode (byteAt dotted.data j)
          (byteAt src j)) : ℚ))) dotted.data
      { dotted with data := bd }
    else dotted
  let overlaid :=
    if 0 < colorBlend then
      let od := rgbMapIdx (fun j =>
        u8 ((jsRound ((byteAt blended.data j : ℚ) * (1 - colorBlend)
          + (byteAt src j : ℚ) * colorBlend) : ℚ))) blended.data
      { blended with data := od }
    else blended
  let fd := buildData overlaid.data.length (fun j =>
    if j % 4 = 3 then byteAt src j else byteAt overlaid.data j)
  { overlaid with data := fd }

/-! ## Hue / Saturation / Color temperature -/

/-- `applyHueSatTemp`: optional color-temperature shift of R and B, then
hue shift and saturation scale through an HSL round trip. -/
def applyHueSatTemp (c : Canvas) (hueShift satShift tempShift : ℚ) : Canvas :=
  let sF := 1 + satShift / 100
  let d' := rgbPointwise (fun _ v =>
    let r : ℚ := v.1
    let g : ℚ := v.2.1
    let b : ℚ := v.2.2
    let r := if tempShift ≠ 0 then max 0 (min 255 (r + tempShift * (4/5))) else r
    let b := if tempShift ≠ 0 then max 0 (min 255 (b - tempShift * (4/5))) else b
    let hsl := rgbToHsl r g b
    let newH := hsl.1 + hueShift
    let newS := max 0 (min 1 (hsl.2.1 * sF))
    let n := hslToRgb newH newS hsl.2.2
    (u8 (n.1 : ℚ), u8 (n.2.1 : ℚ), u8 (n.2.2 : ℚ))) c.data
  { c with data := d' }

/-! ## Posterize styles -/

/-- The fixed "Retro" 4-color palette, indexed by `Math.min(lv, 3)`. -/
def retroPalette (lv : ℕ) : ℕ × ℕ × ℕ :=
  match min lv 3 with
  | 0 => (40, 30, 20)
  | 1 => (120, 80, 40)
  | 2 => (200, 160, 80)
  | _ => (240, 220, 180)

/-- `applyPosterizeStyle`: optional hue pre-shift, then one of the four
fixed recipes (Neon / Retro / Pastel / Duotone); other styles change
nothing. -/
def applyPosterizeStyle (c : Canvas) (style : ℕ) (colorShift : ℚ) : Canvas :=
  let d' := rgbPointwise (fun _ v =>
    let r0 : ℚ := v.1
    let g0 : ℚ := v.2.1
    let b0 : ℚ := v.2.2
    let pre :=
      if colorShift ≠ 0 then
        let hsl := rgbToHsl r0 g0 b0
        let n := hslToRgb (hsl.1 + colorShift) hsl.2.1 hsl.2.2
        ((n.1 : ℚ), (n.2.1 : ℚ), (n.2.2 : ℚ))
      else (r0, g0, b0)
    let r := pre.1
    let g := pre.2.1
    let b := pre.2.2
    match style with
    | 1 =>
      let r : ℚ := (jsRound (r / 64) : ℚ) * 85
      let g : ℚ := (jsRound (g / 64) : ℚ) * 85
      let b : ℚ := (jsRound (b / 64) : ℚ) * 85
      let hsl := rgbToHsl r g b
      let n := hslToRgb hsl.1 (min 1 (hsl.2.1 * (5/2))) hsl.2.2
      (u8 (n.1 : ℚ), u8 (n.2.1 : ℚ), u8 (n.2.2 : ℚ))
    | 2 =>
      let gray := r * (299/1000) + g * (587/1000) + b * (57/500)
      let lv := (⌊gray / 64⌋).toNat
      let p := retroPalette lv
      (u8 (p.1 : ℚ), u8 (p.2.1 : ℚ), u8 (p.2.2 : ℚ))
    | 3 =>
      let r : ℚ := (jsRound (r / 85) : ℚ) * 85
      let g : ℚ := (jsRound (g / 85) : ℚ) * 85
      let b : ℚ := (jsRound (b / 85) : ℚ) * 85
      (u8 ((jsRound (r * (1/2) + 128) : ℚ)),
       u8 ((jsRound (g * (1/2) + 128) : ℚ)),
       u8 ((jsRound (b * (1/2) + 128) : ℚ)))
    | 4 =>
      let gray := r * (299/1000) + g * (587/1000) + b * (57/500)
      let t := gray / 255
      (u8 ((jsRound (20 * (1 - t) + 255 * t) : ℚ)),
       u8 ((jsRound (10 * (1 - t) + 200 * t) : ℚ)),
       u8 ((jsRound (80 * (1 - t) + 50 * t) : ℚ)))
    | _ => (v.1, v.2.1, v.2.2)) c.data
  { c with data := d' }

/-! ## Frosted glass -/

/-- `applyFrostedGlass`: per-pixel random displacement sampling from a
snapshot (two draws per pixel), then a CSS blur self-draw of
`max(1, amount * 0.3)` px. -/
noncomputable def applyFrostedGlass (R : RenderOps) (rand : Rand)
    (c : Canvas) (amount : ℚ) (pos : ℕ) : Canvas × ℕ :=
  let w := c.width
  let h := c.height
  let copy := c.data
  let r := rgbFoldSt (fun pos p _ =>
    let x := p % w
    let y := p / w
    let ox := jsRound ((x:ℚ) + (rand pos - 1/2) * amount)
    let oy := jsRound ((y:ℚ) + (rand (pos+1) - 1/2) * amount)
    let sx := (max 0 (min ((w:ℤ) - 1) ox)).toNat
    let sy := (max 0 (min ((h:ℤ) - 1) oy)).toNat
    let si := sy * w + sx
    ((byteAt copy (4*si), byteAt copy (4*si+1), byteAt copy (4*si+2)),
      pos + 2)) pos c.data
  (R.cssFilterSelfDraw { c with data := r.1 }
    ((max 1 (amount * (3/10)) : ℚ) : ℝ) 1, r.2)

/-! ## Stroke (edge map + distance-field dilation) -/

/-- Value of a hex digit character, if any. -/
def hexVal (c : Char) : Option ℕ :=
  let n := c.toNat
  if 48 ≤ n ∧ n ≤ 57 then some (n - 48)
  else if 65 ≤ n ∧ n ≤ 70 then some (n - 55)
  else if 97 ≤ n ∧ n ≤ 102 then some (n - 87)
  else none

/-- `parseInt(color.slice(i, i+2), 16)`: parses as many hex digits as
possible; no digit gives `NaN`, which the byte store coerces to `0`. -/
def parseHexByte (s : String) (i : ℕ) : ℕ :=
  match s.toList.drop i with
  | [] => 0
  | a :: rest =>
    match hexVal a with
    | none => 0
    | some v1 =>
      match rest with
      | [] => v1
      | b :: _ =>
        match hexVal b with
        | none => v1
        | some v2 => 16 * v1 + v2

/-- The binary alpha mask: `1` where `data[i*4+3] > 128`. -/
def strokeMask (d : List ℕ) (i : ℕ) : ℕ :=
  if 128 < byteAt d (i*4+3) then 1 else 0

/-- The source's transparency scan: some strictly interior pixel is
mask-transparent. -/
def hasTransparency (w h : ℕ) (mask : ℕ → ℕ) : Bool :=
  (List.range (w*h)).any (fun i =>
    decide (mask i = 0 ∧ 0 < i % w ∧ i % w < w - 1 ∧ 0 < i / w ∧ i / w < h - 1))

/-- Strictly interior pixel of the edge-map double loop. -/
def interiorPx (w h i : ℕ) : Prop :=
  1 ≤ i % w ∧ i % w + 2 ≤ w ∧ 1 ≤ i / w ∧ i / w + 2 ≤ h

instance (w h i : ℕ) : Decidable (interiorPx w h i) := by
  unfold interiorPx
  infer_instance

/-- `innerEdge`: interior opaque pixel with a transparent 4-neighbor. -/
def innerEdgeB (w h : ℕ) (mask : ℕ → ℕ) (i : ℕ) : Bool :=
  decide (interiorPx w h i) && decide (mask i = 1) &&
    (decide (mask (i-1) = 0) || decide (mask (i+1) = 0) ||
     decide (mask (i-w) = 0) || decide (mask (i+w) = 0))

/-- `outerEdge`: interior transparent pixel with an opaque 4-neighbor. -/
def outerEdgeB (w h : ℕ) (mask : ℕ → ℕ) (i : ℕ) : Bool :=
  decide (interiorPx w h i) && decide (mask i = 0) &&
    (decide (mask (i-1) = 1) || decide (mask (i+1) = 1) ||
     decide (mask (i-w) = 1) || decide (mask (i+w) = 1))

/-- The 4-neighbors `[x-1,y], [x+1,y], [x,y-1], [x,y+1]`. -/
def neighbors4 (x y : ℕ) : List (ℤ × ℤ) :=
  [((x:ℤ) - 1, (y:ℤ)), ((x:ℤ) + 1, (y:ℤ)), ((x:ℤ), (y:ℤ) - 1),
   ((x:ℤ), (y:ℤ) + 1)]

/-- One frontier-expansion round of the dilation: each frontier pixel marks
its in-bounds, unmarked 4-neighbors matching `matchVal`; returns the grown
result and the newly marked frontier. -/
def dilateStep (w h : ℕ) (mask : ℕ → ℕ) (matchVal : ℕ)
    (st : List ℕ × List (ℕ × ℕ)) : List ℕ × List (ℕ × ℕ) :=
  st.2.foldl (fun acc fp =>
    (neighbors4 fp.1 fp.2).foldl (fun acc2 np =>
      if 0 ≤ np.1 ∧ np.1 < (w:ℤ) ∧ 0 ≤ np.2 ∧ np.2 < (h:ℤ) then
        if acc2.1.getD (np.2.toNat * w + np.1.toNat) 0 = 0
            ∧ mask (np.2.toNat * w + np.1.toNat) = matchVal then
          (acc2.1.set (np.2.toNat * w + np.1.toNat) 1,
           acc2.2 ++ [(np.1.toNat, np.2.toNat)])
        else acc2
      else acc2) acc) (st.1, [])

/-- `width - 1` rounds of frontier expansion. -/
def dilateLoop (w h : ℕ) (mask : ℕ → ℕ) (matchVal : ℕ) :
    ℕ → List ℕ × List (ℕ × ℕ) → List ℕ
  | 0, st => st.1
  | fuel + 1, st => dilateLoop w h mask matchVal fuel (dilateStep w h mask matchVal st)

/-- The row-major scan that seeds the initial frontier from the edge map. -/
def initFrontier (w h : ℕ) (result : List ℕ) : List (ℕ × ℕ) :=
  ((List.range h).map (fun y =>
    (List.range w).filterMap (fun x =>
      if result.getD (y*w + x) 0 ≠ 0 then some (x, y) else none))).flatten

/-- `dilate(edge, mask, matchVal)` of the source for a stroke of the given
width. -/
def dilate (w h : ℕ) (mask : ℕ → ℕ) (matchVal : ℕ) (edge : List ℕ)
    (width' : ℕ) : List ℕ :=
  dilateLoop w h mask matchVal (width' - 1) (edge, initFrontier w h edge)

/-- `applyStroke`: fast rectangle path when the interior has no
transparency; otherwise edge maps, dilation and recoloring (outer stroke
pixels get the stroke color with full alpha; inner stroke pixels are
recolored in place). -/
def applyStroke (R : RenderOps) (c : Canvas) (color : String) (width' : ℕ)
    (inner outer : Bool) : Canvas :=
  let w := c.width
  let h := c.height
  let d := c.data
  let cr := parseHexByte color 1
  let cg := parseHexByte color 3
  let cb := parseHexByte color 5
  let mask := strokeMask d
  if ¬ hasTransparency w h mask then
    let c1 := if outer then
        R.strokeRect c color ((width':ℝ) * 2) (-(width':ℝ)) (-(width':ℝ))
          ((w:ℝ) + width' * 2) ((h:ℝ) + width' * 2)
      else c
    if inner then
      R.strokeRect c1 color ((width':ℝ) * 2) (width':ℝ) (width':ℝ)
        ((w:ℝ) - width' * 2) ((h:ℝ) - width' * 2)
    else c1
  else
    let outerE := (List.range (w*h)).map (fun i => if outerEdgeB w h mask i then 1 else 0)
    let innerE := (List.range (w*h)).map (fun i => if innerEdgeB w h mask i then 1 else 0)
    let d1 :=
      if outer then
        let dil := if 1 < width' then dilate w h mask 0 outerE width' else outerE
        buildData d.length (fun j =>
          let p := j / 4
          if dil.getD p 0 ≠ 0 ∧ mask p = 0 then
            match j % 4 with
            | 0 => cr
            | 1 => cg
            | 2 => cb
            | _ => 255
          else byteAt d j)
      else d
    let d2 :=
      if inner then
        let dil := if 1 < width' then dilate w h mask 1 innerE width' else innerE
        buildData d1.length (fun j =>
          let p := j / 4
          if dil.getD p 0 ≠ 0 ∧ mask p = 1 then
            match j % 4 with
            | 0 => cr
            | 1 => cg
            | 2 => cb
            | _ => byteAt d1 j
          else byteAt d1 j)
      else d1
  { c with data := d2 }

/-! ## Game filters -/

/-- `applyGameFilter`: pixel mosaic / CRT scanlines / neon glow / 8-bit. -/
noncomputable def applyGameFilter (R : RenderOps) (c : Canvas) (mode : ℕ)
    (intensity : ℚ) : Canvas :=
  let w := c.width
  let h := c.height
  match mode with
  | 1 =>
    let bs := max 2 (jsRound (6 * intensity)).toNat
    let d := c.data
    let d' := rgbMapIdx (fun j =>
      let p := j / 4
      let x := p % w
      let y := p / w
      let ch := j % 4
      let bx := x / bs * bs
      let by' := y / bs * bs
      let bw := min bs (w - bx)
      let bh := min bs (h - by')
      let cnt := bw * bh
      let t := Finset.sum (Finset.range bh) (fun dy =>
        Finset.sum (Finset.range bw) (fun dx =>
          byteAt d (((by' + dy) * w + bx + dx) * 4 + ch)))
      u8 ((jsRound ((t:ℚ) / cnt) : ℚ))) d
    { c with data := d' }
  | 2 =>
    let d := c.data
    let lineGap := max 2 (jsRound (3 * intensity)).toNat
    let dp1 := rgbMapIdx (fun j =>
      let y := j / 4 / w
      let darken : ℚ := if y % lineGap = 0 then 1/2 else 1
      u8 ((jsRound ((byteAt d j : ℚ) * darken) : ℚ))) d
    let shift := (jsRound (2 * intensity)).toNat
    let dp2 := rgbMapIdx (fun j =>
      let x := j / 4 % w
      if j % 4 = 0 ∧ x + shift < w then
        u8 (min 255 ((byteAt dp1 j : ℚ) + (byteAt dp1 (j + 4*shift) : ℚ) * (1/10)))
      else byteAt dp1 j) dp1
    R.vignette { c with data := dp2 } (intensity:ℝ)
  | 3 =>
    let d' := rgbPointwise (fun _ v =>
      let hsl := rgbToHsl v.1 v.2.1 v.2.2
      let l := hsl.2.2
      let newS := min 1 (hsl.2.1 * (1 + intensity))
      let newL := if 2/5 < l then min 1 (l * (1 + (3/10) * intensity))
        else l * (1 - (1/5) * intensity)
      let n := hslToRgb hsl.1 newS newL
      (u8 (n.1 : ℚ), u8 (n.2.1 : ℚ), u8 (n.2.2 : ℚ))) c.data
    let c3 := { c with data := d' }
    let bloom := R.cssFilterSelfDraw c3 ((8 * intensity : ℚ) : ℝ) (3/2)
    R.screenDrawAlpha c3 bloom (((2/5) * intensity : ℚ) : ℝ)
  | 4 =>
    let d' := rgbMapIdx (fun j =>
      let step : ℚ := if j % 4 = 2 then 85 else 36
      u8 ((jsRound ((byteAt c.data j : ℚ) / step) : ℚ) * step : ℚ)) c.data
    let c4 := { c with data := d' }
    let bs := max 2 (jsRound (3 * intensity)).toNat
    let small := R.drawScaled c4 ((w + bs - 1) / bs) ((h + bs - 1) / bs) true
    R.drawScaled small w h false
  | _ => c

/-! ## Facet / block filter -/

/-- `fillBlock`: average the source color over the in-bounds pixels of the
block, write it to all of them, then darken the top row and left column of
the block extent by `0.85` (reading the just-written output). -/
def fillBlock (src : List ℕ) (w h : ℕ) (pixels : List (ℕ × ℕ))
    (x0 y0 x1 y1 : ℕ) (d : List ℕ) : List ℕ :=
  let inb := pixels.filter (fun q => q.1 < w ∧ q.2 < h)
  let cnt := inb.length
  if cnt = 0 then d
  else
    let tr := inb.foldl (fun s q => s + byteAt src ((q.2*w + q.1)*4)) 0
    let tg := inb.foldl (fun s q => s + byteAt src ((q.2*w + q.1)*4 + 1)) 0
    let tb := inb.foldl (fun s q => s + byteAt src ((q.2*w + q.1)*4 + 2)) 0
    let ar := u8 ((jsRound ((tr:ℚ)/cnt) : ℚ))
    let ag := u8 ((jsRound ((tg:ℚ)/cnt) : ℚ))
    let ab := u8 ((jsRound ((tb:ℚ)/cnt) : ℚ))
    let d1 := inb.foldl (fun dd q => setRGB dd (q.2*w + q.1) ar ag ab) d
    let darkenAt := fun (dd : List ℕ) (p : ℕ) =>
      setRGB dd p (u8 ((jsRound ((byteAt dd (4*p) : ℚ) * (17/20)) : ℚ)))
        (u8 ((jsRound ((byteAt dd (4*p+1) : ℚ) * (17/20)) : ℚ)))
        (u8 ((jsRound ((byteAt dd (4*p+2) : ℚ) * (17/20)) : ℚ)))
    let d2 :=
      if y0 < h then
        (((List.range' x0 (x1 + 1 - x0)).filter (fun xx => xx < w)).foldl
          (fun dd xx => darkenAt dd (y0*w + xx)) d1)
      else d1
    if x0 < w then
      (((List.range' y0 (y1 + 1 - y0)).filter (fun yy => yy < h)).foldl
        (fun dd yy => darkenAt dd (yy*w + x0)) d2)
    else d2

/-- Block origins `0, bs, 2bs, …` below `n`. -/
def blockStarts (n bs : ℕ) : List ℕ :=
  (List.range ((n + bs - 1) / bs)).map (· * bs)

/-- Nearest-seed scan over the 5×5 neighborhood of grid cells; ties keep
the first seed seen. -/
def nearestSeed (seeds : List (ℕ × ℕ × ℕ × ℕ × ℕ)) (grid : List (List ℕ))
    (gridW gridH cellSz : ℕ) (x y : ℕ) : ℕ :=
  let gy := min (gridH - 1) (y / cellSz)
  let gx := min (gridW - 1) (x / cellSz)
  let scan := (List.range 5).foldl (fun acc dy =>
    let ny := (gy:ℤ) + dy - 2
    if ny < 0 ∨ (gridH:ℤ) ≤ ny then acc
    else (List.range 5).foldl (fun acc2 dx =>
      let nx := (gx:ℤ) + dx - 2
      if nx < 0 ∨ (gridW:ℤ) ≤ nx then acc2
      else (grid.getD (ny.toNat * gridW + nx.toNat) []).foldl
        (fun (acc3 : ℕ × Option ℤ) si =>
          let s := seeds.getD si (0, 0, 0, 0, 0)
          let ddx := (x:ℤ) - s.1
          let ddy := (y:ℤ) - s.2.1
          let dist := ddx*ddx + ddy*ddy
          match acc3.2 with
          | none => (si, some dist)
          | some m => if dist < m then (si, some dist) else acc3) acc2)
      acc) ((0 : ℕ), (none : Option ℤ))
  scan.1

/-- `applyFacet`: rectangular / triangular / Voronoi / diamond partition,
each cell filled with its mean source color. -/
noncomputable def applyFacet (rand : Rand) (c : Canvas) (mode : ℕ)
    (size : ℚ) (pos : ℕ) : Canvas × ℕ :=
  let w := c.width
  let h := c.height
  let src := c.data
  let bs := max 3 (jsRound size).toNat
  match mode with
  | 1 =>
    let r := (blockStarts h bs).foldl (fun (acc : List ℕ × ℕ) by' =>
      (blockStarts w bs).foldl (fun (acc2 : List ℕ × ℕ) bx =>
        let pos := acc2.2
        let vw := (max 2 ((bs:ℤ) + jsRound ((rand pos - 1/2) * bs * (3/5)))).toNat
        let vh := (max 2 ((bs:ℤ) + jsRound ((rand (pos+1) - 1/2) * bs * (3/5)))).toNat
        let x1 := min (w - 1) (bx + vw)
        let y1 := min (h - 1) (by' + vh)
        let pixels := ((List.range' by' (y1 + 1 - by')).map (fun yy =>
          (List.range' bx (x1 + 1 - bx)).map (fun xx => (xx, yy)))).flatten
        (fillBlock src w h pixels bx by' x1 y1 acc2.1, pos + 2)) acc) (src, pos)
    ({ c with data := r.1 }, r.2)
  | 2 =>
    let d' := (blockStarts h bs).foldl (fun acc by' =>
      (blockStarts w bs).foldl (fun acc2 bx =>
        let x1 := min (w - 1) (bx + bs)
        let y1 := min (h - 1) (by' + bs)
        let cells := ((List.range' by' (y1 + 1 - by')).map (fun yy =>
          (List.range' bx (x1 + 1 - bx)).map (fun xx => (xx, yy)))).flatten
        let isA := fun (q : ℕ × ℕ) =>
          ((q.1:ℚ) - bx) / max 1 ((x1:ℚ) - bx)
            + ((q.2:ℚ) - by') / max 1 ((y1:ℚ) - by') ≤ 1
        let triA := cells.filter isA
        let triB := cells.filter (fun q => ¬ isA q)
        fillBlock src w h triB bx by' x1 y1
          (fillBlock src w h triA bx by' x1 y1 acc2)) acc) src
    ({ c with data := d' }, pos)
  | 3 =>
    let numSeeds := max 20 (jsRound ((w*h : ℚ) / (bs*bs*2))).toNat
    let r := (List.range numSeeds).foldl
      (fun (acc : List (ℕ × ℕ × ℕ × ℕ × ℕ) × ℕ) _ =>
        let pos := acc.2
        let sx := (⌊rand pos * w⌋).toNat
        let sy := (⌊rand (pos+1) * h⌋).toNat
        let si := (sy*w + sx)*4
        (acc.1 ++ [(sx, sy, byteAt src si, byteAt src (si+1), byteAt src (si+2))],
          pos + 2)) ([], pos)
    let seeds := r.1
    let cellSz := max 1 (⌊Real.sqrt ((w*h : ℝ) / numSeeds)⌋).toNat
    let gridW := (w + cellSz - 1) / cellSz
    let gridH := (h + cellSz - 1) / cellSz
    let grid := (List.range seeds.length).foldl (fun g i =>
      let s := seeds.getD i (0, 0, 0, 0, 0)
      let gx := min (gridW - 1) (s.1 / cellSz)
      let gy := min (gridH - 1) (s.2.1 / cellSz)
      g.set (gy*gridW + gx) (g.getD (gy*gridW + gx) [] ++ [i]))
      (List.replicate (gridW*gridH) ([] : List ℕ))
    let d' := rgbMapIdx (fun j =>
      let p := j / 4
      let best := seeds.getD
        (nearestSeed seeds grid gridW gridH cellSz (p % w) (p / w))
        (0, 0, 0, 0, 0)
      chanOf (best.2.2.1, best.2.2.2.1, best.2.2.2.2) (j % 4)) src
    ({ c with data := d' }, r.2)
  | 4 =>
    let halfBS := max 2 (jsRound ((bs:ℚ)/2)).toNat
    let d' := (blockStarts h bs).foldl (fun acc by' =>
      (blockStarts w bs).foldl (fun acc2 bx =>
        let cx := bx + halfBS
        let cy := by' + halfBS
        let cells := ((List.range' by' (min h (by' + bs) - by')).map (fun yy =>
          (List.range' bx (min w (bx + bs) - bx)).map (fun xx => (xx, yy)))).flatten
        let inDiamond := fun (q : ℕ × ℕ) =>
          ((q.1:ℤ) - cx).natAbs + ((q.2:ℤ) - cy).natAbs ≤ halfBS
        let diamond := cells.filter inDiamond
        let acc3 :=
          if diamond.length ≠ 0 then
            fillBlock src w h diamond bx by' (min (w-1) (bx+bs)) (min (h-1) (by'+bs)) acc2
          else acc2
        cells.foldl (fun dd q =>
          if ¬ inDiamond q then
            let p := q.2*w + q.1
            setRGB dd p (u8 ((jsRound ((byteAt src (4*p) : ℚ) * (4/5)) : ℚ)))
              (u8 ((jsRound ((byteAt src (4*p+1) : ℚ) * (4/5)) : ℚ)))
              (u8 ((jsRound ((byteAt src (4*p+2) : ℚ) * (4/5)) : ℚ)))
          else dd) acc3) acc) src
    ({ c with data := d' }, pos)
  | _ => (c, pos)

/-! ## Oil paint -/

/-- Quantized-luminance bin of a pixel:
`((r*77 + g*150 + b*29) >> 8) * (levels-1)/255 | 0`. -/
def oilBin (src : List ℕ) (levels : ℕ) (i : ℕ) : ℕ :=
  let lum := (byteAt src (4*i) * 77 + byteAt src (4*i+1) * 150
    + byteAt src (4*i+2) * 29) / 256
  (jsTrunc ((lum : ℚ) * (((levels:ℚ) - 1) / 255))).toNat

/-- `applyOilPaint`: per pixel, histogram the neighborhood (stride 2 when
`r > 3`) into `levels` luminance bins and output the mean color of the
most populated bin; alpha copied from the source. -/
def applyOilPaint (c : Canvas) (radius : ℚ) (levels : ℕ) : Canvas :=
  let w := c.width
  let h := c.height
  let src := c.data
  let r := (min 5 (max 1 (jsRound radius))).toNat
  let step := if 3 < r then 2 else 1
  let d' := buildData src.length (fun j =>
    let p := j / 4
    let x := p % w
    let y := p / w
    let ch := j % 4
    if ch = 3 then byteAt src j
    else
      let y0 := ((y:ℤ) - r).toNat.max 0
      let y1 := min (h - 1) (y + r)
      let x0 := ((x:ℤ) - r).toNat.max 0
      let x1 := min (w - 1) (x + r)
      let ys := List.range' y0 ((y1 - y0) / step + 1) step
      let xs := List.range' x0 ((x1 - x0) / step + 1) step
      let hist := ys.foldl (fun acc sy =>
        xs.foldl (fun (acc2 : List ℕ × List ℕ × List ℕ × List ℕ) sx =>
          let idx := sy*w + sx
          let bin := oilBin src levels idx
          (acc2.1.set bin (acc2.1.getD bin 0 + 1),
           acc2.2.1.set bin (acc2.2.1.getD bin 0 + byteAt src (4*idx)),
           acc2.2.2.1.set bin (acc2.2.2.1.getD bin 0 + byteAt src (4*idx+1)),
           acc2.2.2.2.set bin (acc2.2.2.2.getD bin 0 + byteAt src (4*idx+2)))) acc)
        (List.replicate levels 0, List.replicate levels 0,
         List.replicate levels 0, List.replicate levels 0)
      let bins := hist.1
      let am := ((List.range levels).drop 1).foldl
        (fun (acc : ℕ × ℕ) b =>
          if acc.2 < bins.getD b 0 then (b, bins.getD b 0) else acc)
        (0, bins.getD 0 0)
      if 0 < am.2 then
        u8 ((chanOf (hist.2.1.getD am.1 0, hist.2.2.1.getD am.1 0,
          hist.2.2.2.getD am.1 0) ch : ℚ) / am.2)
      else byteAt src j)
  { c with data := d' }

/-! ## Metal -/

/-- `applyMetal`: interior emboss from a snapshot, then per-pixel
desaturation, cool tint, contrast boost and specular highlights. -/
def applyMetal (c : Canvas) (intensity : ℚ) : Canvas :=
  let w := c.width
  let h := c.height
  let src := c.data
  let embossed := rgbMapIdx (fun j =>
    let p := j / 4
    let x := p % w
    let y := p / w
    if 1 ≤ x ∧ x + 1 < w ∧ 1 ≤ y ∧ y + 1 < h then
      let tl := (p - w - 1) * 4 + j % 4
      let br := (p + w + 1) * 4 + j % 4
      u8 (max 0 (min 255 ((byteAt src j : ℚ) * 2
        - (byteAt src tl : ℚ) * (1/2) - (byteAt src br : ℚ) * (1/2))))
    else byteAt src j) src
  let d' := rgbPointwise (fun _ v =>
    let r : ℚ := v.1
    let g : ℚ := v.2.1
    let b : ℚ := v.2.2
    let gray := r * (299/1000) + g * (587/1000) + b * (57/500)
    let desat := (3/10) + (7/10) * (1 - intensity * (1/2))
    let mr := gray * (1 - desat) + r * desat
    let mg := gray * (1 - desat) + g * desat
    let mb := gray * (1 - desat) + b * desat
    let mr := mr * (1 - intensity * (3/20))
    let mg := mg * (1 - intensity * (1/20))
    let mb := mb * (1 + intensity * (3/25))
    let contrast := 1 + intensity * (2/5)
    let mr := (mr - 128) * contrast + 128
    let mg := (mg - 128) * contrast + 128
    let mb := (mb - 128) * contrast + 128
    let spec : ℚ := if 200 < gray then ((gray - 200) / 55) * intensity * 80 else 0
    let mr := mr + spec
    let mg := mg + spec
    let mb := mb + spec * (11/10)
    (u8 (max 0 (min 255 mr)), u8 (max 0 (min 255 mg)),
     u8 (max 0 (min 255 mb)))) embossed
  { c with data := d' }

/-! ## Palette knife -/

/-- `applyPaletteKnife`: per pixel, histogram a clamped line of samples
along the stroke direction into 6 brightness bins and output the mean
color of the winning bin; alpha copied from the source. -/
noncomputable def applyPaletteKnife (c : Canvas) (strokeLen direction : ℚ) :
    Canvas :=
  let w := c.width
  let h := c.height
  let src := c.data
  let rad : ℝ := (direction:ℝ) * Real.pi / 180
  let ddx := Real.cos rad
  let ddy := Real.sin rad
  let len := (min 20 (max 2 (jsRound strokeLen))).toNat
  let step := if 10 < len then 2 else 1
  let samples := (List.range (2*len/step + 1)).map (fun k =>
    let t : ℝ := ((-(len:ℤ) + k*step : ℤ) : ℝ)
    (jsRound (t * ddx), jsRound (t * ddy)))
  let numBins := 6
  let binScale : ℚ := 6 / 766
  let d' := buildData src.length (fun j =>
    let p := j / 4
    let x := p % w
    let y := p / w
    let ch := j % 4
    if ch = 3 then byteAt src j
    else
      let hist := samples.foldl
        (fun (acc : List ℕ × List ℕ × List ℕ × List ℕ) off =>
          let sx := (max 0 (min ((w:ℤ) - 1) ((x:ℤ) + off.1))).toNat
          let sy := (max 0 (min ((h:ℤ) - 1) ((y:ℤ) + off.2))).toNat
          let idx := sy*w + sx
          let s := byteAt src (4*idx) + byteAt src (4*idx+1) + byteAt src (4*idx+2)
          let bin := min (numBins - 1) (jsTrunc ((s:ℚ) * binScale)).toNat
          (acc.1.set bin (acc.1.getD bin 0 + 1),
           acc.2.1.set bin (acc.2.1.getD bin 0 + byteAt src (4*idx)),
           acc.2.2.1.set bin (acc.2.2.1.getD bin 0 + byteAt src (4*idx+1)),
           acc.2.2.2.set bin (acc.2.2.2.getD bin 0 + byteAt src (4*idx+2))))
        (List.replicate numBins 0, List.replicate numBins 0,
         List.replicate numBins 0, List.replicate numBins 0)
      let bins := hist.1
      let am := ((List.range numBins).drop 1).foldl
        (fun (acc : ℕ × ℕ) b =>
          if acc.2 < bins.getD b 0 then (b, bins.getD b 0) else acc)
        (0, bins.getD 0 0)
      if 0 < am.2 then
        u8 ((chanOf (hist.2.1.getD am.1 0, hist.2.2.1.getD am.1 0,
          hist.2.2.2.getD am.1 0) ch : ℚ) / am.2)
      else byteAt src j)
  { c with data := d' }

/-! ## Texture / brush filters -/

/-- JS `%` on integers (sign follows the dividend; `Int.div` truncates
toward zero). -/
def jsIntMod (a b : ℤ) : ℤ := a - b * (Int.tdiv a b)

/-- Luminance `0.299 r + 0.587 g + 0.114 b` of pixel `p` as a rational. -/
def lumQ (d : List ℕ) (p : ℕ) : ℚ :=
  (byteAt d (4*p) : ℚ) * (299/1000) + (byteAt d (4*p+1) : ℚ) * (587/1000)
    + (byteAt d (4*p+2) : ℚ) * (57/500)

/-- `applyTextureFilter`: canvas weave / watercolor / crayon / impasto /
crosshatch / stipple; second component is the advanced random cursor. -/
noncomputable def applyTextureFilter (rand : Rand) (c : Canvas) (mode : ℕ)
    (intensity : ℚ) (pos : ℕ) : Canvas × ℕ :=
  if mode = 0 then (c, pos)
  else
    let w := c.width
    let h := c.height
    let src := c.data
    match mode with
    | 1 =>
      let d' := rgbMapIdx (fun j =>
        let p := j / 4
        let x := p % w
        let y := p / w
        let tx := Real.sin ((x:ℝ) * (4/5)) * (1/2) + 1/2
        let ty := Real.sin ((y:ℝ) * (4/5)) * (1/2) + 1/2
        let pattern := tx * ty * (3/10) + 7/10
        let lum : ℝ := ((byteAt src (4*p) + byteAt src (4*p+1)
          + byteAt src (4*p+2) : ℕ) : ℝ) / 765
        let texFactor := 1 - (1 - pattern) * (intensity:ℝ) * (3/10 + lum * (7/10))
        u8 (max 0 (min 255 ((byteAt src j : ℝ) * texFactor)))) src
      ({ c with data := d' }, pos)
    | 2 =>
      let disp := jsRound (3 * intensity)
      let ph1 := rgbFoldSt (fun pos p _ =>
        let x := p % w
        let y := p / w
        let ox := (max 0 (min ((w:ℤ) - 1)
          ((x:ℤ) + jsRound ((rand pos - 1/2) * disp)))).toNat
        let oy := (max 0 (min ((h:ℤ) - 1)
          ((y:ℤ) + jsRound ((rand (pos+1) - 1/2) * disp)))).toNat
        let si := oy*w + ox
        ((byteAt src (4*si), byteAt src (4*si+1), byteAt src (4*si+2)),
          pos + 2)) pos src
      let copy := ph1.1
      let interior := ((List.range' 1 (h - 2)).map (fun y =>
        (List.range' 1 (w - 2)).map (fun x => y*w + x))).flatten
      let ph2 := rgbFoldStOver interior (fun pos p dd =>
        let grayL := lumQ copy (p - 1)
        let grayR := lumQ copy (p + 1)
        let grayU := lumQ copy (p - w)
        let grayD := lumQ copy (p + w)
        let edge := min 1 ((|grayR - grayL| + |grayD - grayU|) / 200 * intensity)
        let darken := 1 - edge * (1/2)
        let step1 := fun ch => u8 (max 0 ((byteAt dd (4*p+ch) : ℚ) * darken))
        let variation := (rand pos - 1/2) * 10 * intensity
        let step2 := fun ch =>
          u8 (max 0 (min 255 ((step1 ch : ℚ) + variation)))
        ((step2 0, step2 1, step2 2), pos + 1)) ph1.2 copy
      ({ c with data := ph2.1 }, ph2.2)
    | 3 =>
      let r := rgbFoldSt (fun pos p _ =>
        let x := p % w
        let y := p / w
        let hatch := Real.sin (((x + y : ℕ) : ℝ) * (2/5)) * (1/2) + 1/2
        let gap : ℝ := if rand pos < (3/20) * intensity then 3/5 else 1
        let colorVar := ((rand (pos+1) - 1/2) * 15 * intensity : ℚ)
        let factor := (7/10 + hatch * (3/10)) * gap
        let ch := fun k =>
          u8 (max 0 (min 255 ((byteAt src (4*p+k) : ℝ) * factor + (colorVar:ℝ))))
        ((ch 0, ch 1, ch 2), pos + 2)) pos src
      ({ c with data := r.1 }, r.2)
    | 4 =>
      let d' := buildData src.length (fun j =>
        let p := j / 4
        let x := p % w
        let y := p / w
        let ch := j % 4
        if ch = 3 then byteAt src j
        else if 1 ≤ x ∧ x + 1 < w ∧ 1 ≤ y ∧ y + 1 < h then
          let tl : ℚ := byteAt src ((p - w - 1) * 4 + ch)
          let br : ℚ := byteAt src ((p + w + 1) * 4 + ch)
          let v : ℚ := byteAt src j
          u8 (max 0 (min 255 (v + (v - tl) * (1/2) * intensity
            - (br - v) * (3/10) * intensity)))
        else byteAt src j)
      ({ c with data := d' }, pos)
    | 5 =>
      let d' := rgbMapIdx (fun j =>
        let p := j / 4
        let x := p % w
        let y := p / w
        let darkness := 1 - lumQ src p / 255
        let ink :=
          (if (1/5) * (2 - intensity) < darkness ∧ y % 4 = 0 then 1 else 0)
          + (if (2/5) * (2 - intensity) < darkness ∧ x % 4 = 0 then 1 else 0)
          + (if (3/5) * (2 - intensity) < darkness ∧ (x + y) % 5 = 0 then 1 else 0)
          + (if (4/5) * (2 - intensity) < darkness
               ∧ jsIntMod ((x:ℤ) - y + 500) 5 < 1 then 1 else 0)
        if 0 < ink then 0 else 255) src
      ({ c with data := d' }, pos)
    | 6 =>
      let r := rgbFoldSt (fun pos p _ =>
        let darkness := 1 - lumQ src p / 255
        let dotProb := darkness * intensity * (4/5)
        let v := if rand pos < dotProb then 0 else 255
        ((v, v, v), pos + 1)) pos src
      ({ c with data := r.1 }, r.2)
    | _ => (c, pos)

/-! ## Layer saturation -/

/-- `applyLayerSaturation`: desaturate toward luminance by
`saturation/100` (`100` is the identity and returns early). -/
def applyLayerSaturation (c : Canvas) (saturation : ℚ) : Canvas :=
  if saturation = 100 then c
  else
    let factor := saturation / 100
    let d' := rgbPointwise (fun _ v =>
      let r : ℚ := v.1
      let g : ℚ := v.2.1
      let b : ℚ := v.2.2
      let gray := (299/1000) * r + (587/1000) * g + (57/500) * b
      (u8 (max 0 (min 255 (gray + (r - gray) * factor))),
       u8 (max 0 (min 255 (gray + (g - gray) * factor))),
       u8 (max 0 (min 255 (gray + (b - gray) * factor))))) c.data
    { c with data := d' }

/-! ## Gradient fade transparency -/

/-- Normalized gradient position `t` of pixel `(x, y)` for the given fade
direction (`0` left→right, `1` right→left, `2` top→bottom, `3` bottom→top,
`4` radial from center); other directions leave `t = 0`. -/
noncomputable def fadeT (w h x y : ℕ) (direction : ℕ) : ℝ :=
  match direction with
  | 0 => (x:ℝ) / w
  | 1 => 1 - (x:ℝ) / w
  | 2 => (y:ℝ) / h
  | 3 => 1 - (y:ℝ) / h
  | 4 =>
    let dx := ((x:ℝ) / w - 1/2) * 2
    let dy := ((y:ℝ) / h - 1/2) * 2
    Real.sqrt (dx*dx + dy*dy) / (707/500)
  | _ => 0

/-- `applyGradientFade`: multiply each alpha byte by
`max(0, 1 - t * amount/100)` and round. -/
noncomputable def applyGradientFade (c : Canvas) (direction : ℕ)
    (amount : ℚ) : Canvas :=
  let w := c.width
  let h := c.height
  let d' := buildData c.data.length (fun j =>
    if j % 4 = 3 then
      (max 0 (min 255 (jsRound ((byteAt c.data j : ℝ)
        * max 0 (1 - fadeT w h (j / 4 % w) (j / 4 / w) direction
            * ((amount:ℝ) / 100)))))).toNat
    else byteAt c.data j)
  { c with data := d' }

/-! ## Channel color shifts -/

/-- `applyChannelShifts`: red-green, yellow-blue and pink-cyan axis pushes,
each scaled by `value * 1.27`; all-zero inputs return early. -/
def applyChannelShifts (c : Canvas) (rg yb pc : ℚ) : Canvas :=
  if rg = 0 ∧ yb = 0 ∧ pc = 0 then c
  else
    let d' := rgbPointwise (fun _ v =>
      let r : ℚ := v.1
      let g : ℚ := v.2.1
      let b : ℚ := v.2.2
      let s1 := rg * (127/100)
      let r := if rg ≠ 0 then max 0 (min 255 (r + s1)) else r
      let g := if rg ≠ 0 then max 0 (min 255 (g - s1)) else g
      let s2 := yb * (127/100)
      let r := if yb ≠ 0 then max 0 (min 255 (r + s2 * (1/2))) else r
      let g := if yb ≠ 0 then max 0 (min 255 (g + s2 * (1/2))) else g
      let b := if yb ≠ 0 then max 0 (min 255 (b - s2)) else b
      let s3 := pc * (127/100)
      let r := if pc ≠ 0 then max 0 (min 255 (r + s3 * (1/2))) else r
      let g := if pc ≠ 0 then max 0 (min 255 (g - s3)) else g
      let b := if pc ≠ 0 then max 0 (min 255 (b + s3 * (1/2))) else b
      (u8 r, u8 g, u8 b)) c.data
    { c with data := d' }

/-! ## Warp mesh distortion -/

structure WarpMesh where
  rows : ℕ
  cols : ℕ
  points : List (ℚ × ℚ)

/-- `getPoint`: mesh point at grid position `(r, c)`, or the default
uniform-grid position when the index is missing
(`points[idx] || default`). -/
def getPoint (mesh : WarpMesh) (cellW cellH : ℚ) (r c : ℤ) : ℚ × ℚ :=
  let idx := r * mesh.cols + c
  match (if 0 ≤ idx then mesh.points.get? idx.toNat else none) with
  | some p => p
  | none => ((c:ℚ) * cellW, (r:ℚ) * cellH)

/-- The source's `bilinear` helper, verbatim: note that both `y0` and `y1`
interpolate with `ty` (the `tx` fraction is not used for the
y-coordinate). -/
def meshBilinear (tx ty : ℚ) (p00 p10 p01 p11 : ℚ × ℚ) : ℚ × ℚ :=
  let x0 := p00.1 * (1 - tx) + p10.1 * tx
  let x1 := p01.1 * (1 - tx) + p11.1 * tx
  let y0 := p00.2 * (1 - ty) + p10.2 * ty
  let y1 := p01.2 * (1 - ty) + p11.2 * ty
  (x0 * (1 - ty) + x1 * ty, y0 * (1 - ty) + y1 * ty)

/-- Source-space sample position of destination pixel `(dx, dy)`. -/
def warpSrcPos (w h : ℕ) (mesh : WarpMesh) (dx dy : ℕ) : ℚ × ℚ :=
  let cellW := (w:ℚ) / ((mesh.cols:ℚ) - 1)
  let cellH := (h:ℚ) / ((mesh.rows:ℚ) - 1)
  let gx := (dx:ℚ) / cellW
  let gy := (dy:ℚ) / cellH
  let ci := min ((mesh.cols:ℤ) - 2) ⌊gx⌋
  let ri := min ((mesh.rows:ℤ) - 2) ⌊gy⌋
  let fx := gx - ci
  let fy := gy - ri
  meshBilinear fx fy (getPoint mesh cellW cellH ri ci)
    (getPoint mesh cellW cellH ri (ci+1))
    (getPoint mesh cellW cellH (ri+1) ci)
    (getPoint mesh cellW cellH (ri+1) (ci+1))

/-- `applyWarpMesh`: per destination pixel, nearest-sample the source at
the (rounded) warped position; out-of-bounds gives the zeroed
(fully transparent) pixel of the fresh `createImageData`. -/
def applyWarpMesh (c : Canvas) (mesh : WarpMesh) : Canvas :=
  let w := c.width
  let h := c.height
  let src := c.data
  let d' := buildData (w*h*4) (fun j =>
    let p := j / 4
    let pos := warpSrcPos w h mesh (p % w) (p / w)
    let sx := jsRound pos.1
    let sy := jsRound pos.2
    if 0 ≤ sx ∧ sx < (w:ℤ) ∧ 0 ≤ sy ∧ sy < (h:ℤ) then
      byteAt src ((sy.toNat * w + sx.toNat) * 4 + j % 4)
    else 0)
  { width := w, height := h, data := d' }

/-! ## Global hue rotation -/

def applyGlobalHueRotate (c : Canvas) (degrees : ℚ) : Canvas :=
  if degrees = 0 then c
  else
    let d' := rgbPointwise (fun _ v =>
      let hsl := rgbToHsl v.1 v.2.1 v.2.2
      let n := hslToRgb (hsl.1 + degrees) hsl.2.1 hsl.2.2
      (u8 (n.1 : ℚ), u8 (n.2.1 : ℚ), u8 (n.2.2 : ℚ))) c.data
    { c with data := d' }

/-! ## Color separation -/

/-- `applyColorSeparation`: per-channel posterize with independent level
counts, then lerp with the original by `mix`; `mix ≤ 0` returns early. -/
def applyColorSeparation (c : Canvas) (levR levG levB mix : ℚ) : Canvas :=
  if mix ≤ 0 then c
  else
    let m := mix
    let m1 := 1 - m
    let d' := rgbMapIdx (fun j =>
      let step : ℚ := 255 / ((if j % 4 = 0 then levR
        else if j % 4 = 1 then levG else levB) - 1)
      let v : ℚ := byteAt c.data j
      let sv : ℚ := jsRound ((jsRound (v / step) : ℚ) * step)
      u8 ((jsRound (v * m1 + sv * m) : ℚ))) c.data
    { c with data := d' }

/-! ## Perspective transform (computePerspectiveTransform / solveLinearSystem) -/

/-- Entry `(i, j)` of a row-list matrix. -/
def getEl (M : List (List ℚ)) (i j : ℕ) : ℚ := (M.getD i []).getD j 0

/-- Partial-pivot search of column `col`: the max-magnitude row at or below
the diagonal (strict improvement, so the first maximum wins). -/
def pivotSearch (M : List (List ℚ)) (col n : ℕ) : ℕ × ℚ :=
  (List.range' (col+1) (n - col - 1)).foldl
    (fun acc row =>
      if acc.2 < |getEl M row col| then (row, |getEl M row col|) else acc)
    (col, |getEl M col col|)

/-- Eliminate below the pivot: for each lower row subtract
`factor * pivotRow` from entries `col..n`. -/
def eliminateBelow (M : List (List ℚ)) (col n : ℕ) : List (List ℚ) :=
  (List.range' (col+1) (n - col - 1)).foldl
    (fun M row =>
      let factor := getEl M row col / getEl M col col
      M.set row ((List.range (n+1)).map (fun j =>
        if j < col then getEl M row j
        else getEl M row j - factor * getEl M col j)))
    M

/-- The forward phase of Gaussian elimination with partial pivoting;
`none` when some pivot magnitude drops below `1e-10`. -/
def gaussForward (M : List (List ℚ)) (n : ℕ) : Option (List (List ℚ)) :=
  (List.range n).foldl
    (fun acc col =>
      match acc with
      | none => none
      | some M =>
        let pv := pivotSearch M col n
        if pv.2 < 1/10000000000 then none
        else
          let rc := M.getD col []
          let rm := M.getD pv.1 []
          some (eliminateBelow ((M.set col rm).set pv.1 rc) col n))
    (some M)

/-- Back substitution on the upper-triangular augmented matrix. -/
def backSub (M : List (List ℚ)) (n : ℕ) : List ℚ :=
  (List.range n).reverse.foldl
    (fun x row =>
      x.set row ((getEl M row n
        - (Finset.sum (Finset.range (n - row - 1)) (fun k =>
            getEl M row (row + 1 + k) * x.getD (row + 1 + k) 0)))
        / getEl M row row))
    (List.replicate n 0)

/-- `solveLinearSystem(A, B)`: Gaussian elimination with partial pivoting,
`none` on a near-singular pivot. -/
def solveLinearSystem (A : List (List ℚ)) (B : List ℚ) : Option (List ℚ) :=
  let n := B.length
  let M := A.mapIdx (fun i row => row ++ [B.getD i 0])
  match gaussForward M n with
  | none => none
  | some M' => some (backSub M' n)

/-- The `8 × 8` system rows and right-hand side built from the four
source/destination control-point pairs. -/
def perspectiveSystem (src dst : List (ℚ × ℚ)) : List (List ℚ) × List ℚ :=
  (List.range 4).foldl
    (fun acc i =>
      let sp := src.getD i (0, 0)
      let dp := dst.getD i (0, 0)
      let sx := sp.1
      let sy := sp.2
      let dx := dp.1
      let dy := dp.2
      (acc.1 ++ [[sx, sy, 1, 0, 0, 0, -sx*dx, -sy*dx],
                 [0, 0, 0, sx, sy, 1, -sx*dy, -sy*dy]],
       acc.2 ++ [dx, dy]))
    ([], [])

/-- `computePerspectiveTransform`: solve the 8-unknown system; a singular
system yields the identity matrix (never an error). -/
def computePerspectiveTransform (src dst : List (ℚ × ℚ)) : List ℚ :=
  let sys := perspectiveSystem src dst
  match solveLinearSystem sys.1 sys.2 with
  | none => [1, 0, 0, 0, 1, 0, 0, 0, 1]
  | some result => result ++ [1]

/-! ## Pipeline entry points -/

/-- The resized dimensions `round(w*r), round(h*r)` with
`r = min(maxSize/w, maxSize/h)`. -/
def resizedDims (w h m : ℕ) : ℕ × ℕ :=
  let r := min ((m:ℚ)/w) ((m:ℚ)/h)
  ((jsRound ((w:ℚ) * r)).toNat, (jsRound ((h:ℚ) * r)).toNat)

/-- `imgToCanvas(img, maxSize)`: rasterize, downscaling only when a nonzero
`maxSize` is exceeded. -/
def imgToCanvas (R : RenderOps) (img : Canvas) (maxSize : Option ℕ) : Canvas :=
  match maxSize with
  | none => img
  | some m =>
    if m ≠ 0 ∧ (m < img.width ∨ m < img.height) then
      let dims := resizedDims img.width img.height m
      R.drawScaled img dims.1 dims.2 true
    else img

/-- `applyFilters(img, filters, maxSize)`: the full catalog in the fixed
order of the source, each family guarded by its enable condition. -/
noncomputable def applyFilters (R : RenderOps) (rand : Rand) (img : Canvas)
    (filters : LayerFilters) (maxSize : Option ℕ) : Canvas :=
  let c := imgToCanvas R img maxSize
  let c := if filters.brightness ≠ 0 ∨ filters.contrast ≠ 0 then
      applyBrightnessContrast c filters.brightness filters.contrast else c
  let c := if filters.hueShift ≠ 0 ∨ filters.saturation ≠ 0
      ∨ filters.colorTempShift ≠ 0 then
      applyHueSatTemp c filters.hueShift filters.saturation
        filters.colorTempShift else c
  let c := if 0 < filters.blurType ∧ 0 < filters.blurRadius then
      applyNewBlur R c filters.blurType filters.blurRadius filters.blurAngle
    else c
  let fg := if filters.frostedGlass ∧ 0 < filters.frostedGlassAmount then
      applyFrostedGlass R rand c filters.frostedGlassAmount 0 else (c, 0)
  let c := fg.1
  let nz := if 0 < filters.noiseType ∧ 0 < filters.noiseAmount then
      applyNewNoise rand c filters.noiseType filters.noiseAmount
        filters.noiseDensity fg.2 else (c, fg.2)
  let c := nz.1
  let c := if 0 < filters.posterize then applyPosterize c filters.posterize
    else c
  let c := if 0 < filters.posterizeStyle then
      applyPosterizeStyle c filters.posterizeStyle filters.posterizeColorShift
    else c
  let c := if filters.lineArt then
      applyLineArt R c filters.lineArtThreshold filters.lineArtBlend
        filters.lineArtColorBlend else c
  let c := if filters.findEdges then
      applyFindEdges R c filters.findEdgesStrength filters.findEdgesBlend
    else c
  let c := if filters.invert then applyInvert c else c
  let c := if filters.levels then
      applyLevels c filters.levelsBlack filters.levelsWhite
        filters.levelsGamma filters.levelsMono else c
  let c := if filters.halftone then
      applyHalftone R c filters.halftoneSize filters.halftoneAngle
        filters.halftoneColorMode filters.halftoneColorBlend
        filters.halftoneBlendMode else c
  let c := if filters.strokeEnabled then
      applyStroke R c filters.strokeColor filters.strokeWidth
        filters.strokeInner filters.strokeOuter else c
  let fc := if 0 < filters.facetFilter then
      applyFacet rand c filters.facetFilter filters.facetSize nz.2
    else (c, nz.2)
  let c := fc.1
  let c := if filters.oilPaint then
      applyOilPaint c filters.oilPaintRadius filters.oilPaintLevels else c
  let c := if filters.metalFilter then applyMetal c filters.metalIntensity
    else c
  let c := if filters.paletteKnife then
      applyPaletteKnife c filters.paletteKnifeLength
        filters.paletteKnifeDirection else c
  let tx := if 0 < filters.textureFilter then
      applyTextureFilter rand c filters.textureFilter
        filters.textureIntensity fc.2 else (c, fc.2)
  let c := tx.1
  let c := if filters.colorSepEnabled ∧ 0 < filters.colorSepMix then
      applyColorSeparation c filters.colorSepR filters.colorSepG
        filters.colorSepB filters.colorSepMix else c
  let c := if 0 < filters.gameFilter then
      applyGameFilter R c filters.gameFilter filters.gameFilterIntensity
    else c
  let c := if filters.channelShiftRG ≠ 0 ∨ filters.channelShiftYB ≠ 0
      ∨ filters.channelShiftPC ≠ 0 then
      applyChannelShifts c filters.channelShiftRG filters.channelShiftYB
        filters.channelShiftPC else c
  let c := if filters.gradientFade ∧ 0 < filters.gradientFadeAmount then
      applyGradientFade c filters.gradientFadeDirection
        filters.gradientFadeAmount else c
  c

/-- `processFiltersFromCanvas(srcCanvas, filters, maxSize, globalHueRotate,
layerSaturation)`: the same pipeline from a canvas source, then the
optional global hue rotation and layer saturation. -/
noncomputable def processFiltersFromCanvas (R : RenderOps) (rand : Rand)
    (srcCanvas : Canvas) (filters : LayerFilters) (maxSize : Option ℕ)
    (globalHueRotate layerSaturation : Option ℚ) : Canvas :=
  let c :=
    match maxSize with
    | none => srcCanvas
    | some m =>
      if m ≠ 0 ∧ (m < srcCanvas.width ∨ m < srcCanvas.height) then
        let dims := resizedDims srcCanvas.width srcCanvas.height m
        R.drawScaled srcCanvas dims.1 dims.2 true
      else srcCanvas
  let c := if filters.brightness ≠ 0 ∨ filters.contrast ≠ 0 then
      applyBrightnessContrast c filters.brightness filters.contrast else c
  let c := if filters.hueShift ≠ 0 ∨ filters.saturation ≠ 0
      ∨ filters.colorTempShift ≠ 0 then
      applyHueSatTemp c filters.hueShift filters.saturation
        filters.colorTempShift else c
  let c := if 0 < filters.blurType ∧ 0 < filters.blurRadius then
      applyNewBlur R c filters.blurType filters.blurRadius filters.blurAngle
    else c
  let fg := if filters.frostedGlass ∧ 0 < filters.frostedGlassAmount then
      applyFrostedGlass R rand c filters.frostedGlassAmount 0 else (c, 0)
  let c := fg.1
  let nz := if 0 < filters.noiseType ∧ 0 < filters.noiseAmount then
      applyNewNoise rand c filters.noiseType filters.noiseAmount
        filters.noiseDensity fg.2 else (c, fg.2)
  let c := nz.1
  let c := if 0 < filters.posterize then applyPosterize c filters.posterize
    else c
  let c := if 0 < filters.posterizeStyle then
      applyPosterizeStyle c filters.posterizeStyle filters.posterizeColorShift
    else c
  let c := if filters.lineArt then
      applyLineArt R c filters.lineArtThreshold filters.lineArtBlend
        filters.lineArtColorBlend else c
  let c := if filters.findEdges then
      applyFindEdges R c filters.findEdgesStrength filters.findEdgesBlend
    else c
  let c := if filters.invert then applyInvert c else c
  let c := if filters.levels then
      applyLevels c filters.levelsBlack filters.levelsWhite
        filters.levelsGamma filters.levelsMono else c
  let c := if filters.halftone then
      applyHalftone R c filters.halftoneSize filters.halftoneAngle
        filters.halftoneColorMode filters.halftoneColorBlend
        filters.halftoneBlendMode else c
  let c := if filters.strokeEnabled then
      applyStroke R c filters.strokeColor filters.strokeWidth
        filters.strokeInner filters.strokeOuter else c
  let fc := if 0 < filters.facetFilter then
      applyFacet rand c filters.facetFilter filters.facetSize nz.2
    else (c, nz.2)
  let c := fc.1
  let c := if filters.oilPaint then
      applyOilPaint c filters.oilPaintRadius filters.oilPaintLevels else c
  let c := if filters.metalFilter then applyMetal c filters.metalIntensity
    else c
  let c := if filters.paletteKnife then
      applyPaletteKnife c filters.paletteKnifeLength
        filters.paletteKnifeDirection else c
  let tx := if 0 < filters.textureFilter then
      applyTextureFilter rand c filters.textureFilter
        filters.textureIntensity fc.2 else (c, fc.2)
  let c := tx.1
  let c := if filters.colorSepEnabled ∧ 0 < filters.colorSepMix then
      applyColorSeparation c filters.colorSepR filters.colorSepG
        filters.colorSepB filters.colorSepMix else c
  let c := if 0 < filters.gameFilter then
      applyGameFilter R c filters.gameFilter filters.gameFilterIntensity
    else c
  let c := if filters.channelShiftRG ≠ 0 ∨ filters.channelShiftYB ≠ 0
      ∨ filters.channelShiftPC ≠ 0 then
      applyChannelShifts c filters.channelShiftRG filters.channelShiftYB
        filters.channelShiftPC else c
  let c := if filters.gradientFade ∧ 0 < filters.gradientFadeAmount then
      applyGradientFade c filters.gradientFadeDirection
        filters.gradientFadeAmount else c
  let c :=
    match globalHueRotate with
    | some v => if v ≠ 0 then applyGlobalHueRotate c v else c
    | none => c
  match layerSaturation with
  | some v => if v ≠ 100 then applyLayerSaturation c v else c
  | none => c

/-! ## Auxiliary notions for the claims -/

/-- `reachB n x y`: pixel `(x, y)` is within 4-connected graph distance
`n` of a mask-opaque pixel. -/
def reachB (w h : ℕ) (mask : ℕ → ℕ) : ℕ → ℕ → ℕ → Bool
  | 0, x, y => mask (y*w + x) == 1
  | n+1, x, y =>
    reachB w h mask n x y ||
      (neighbors4 x y).any (fun np =>
        decide (0 ≤ np.1 ∧ np.1 < (w:ℤ) ∧ 0 ≤ np.2 ∧ np.2 < (h:ℤ)) &&
          reachB w h mask n np.1.toNat np.2.toNat)

/-- Modelled from the spec: the bilinear interpolation of the four cell
corner positions at fractional position `(tx, ty)` — "bilinearly
interpolate the 4 mesh corner points … to get the source-space sample
coordinate". (The source's `bilinear` helper is `meshBilinear` above.) -/
def bilerpPointSpec (tx ty : ℚ) (p00 p10 p01 p11 : ℚ × ℚ) : ℚ × ℚ :=
  (p00.1 * (1 - tx) * (1 - ty) + p10.1 * tx * (1 - ty)
     + p01.1 * (1 - tx) * ty + p11.1 * tx * ty,
   p00.2 * (1 - tx) * (1 - ty) + p10.2 * tx * (1 - ty)
     + p01.2 * (1 - tx) * ty + p11.2 * tx * ty)

/-- 4×4 fully opaque red buffer of concrete scenario 1. -/
def red4x4 : Canvas := ⟨4, 4, (List.replicate 16 [255, 0, 0, 255]).flatten⟩

/-- 2×1 buffer, opaque black pixel next to a fully transparent one. -/
def ctrGauss : Canvas := ⟨2, 1, [0, 0, 0, 255, 0, 0, 0, 0]⟩

/-- 2×1 fully opaque buffer. -/
def ctrFade : Canvas := ⟨2, 1, [9, 9, 9, 255, 9, 9, 9, 255]⟩

/-- 3×3 buffer, all opaque white except a fully transparent center pixel. -/
def strokeC3x3 : Canvas :=
  ⟨3, 3, (List.replicate 4 [255, 255, 255, 255]).flatten
    ++ [0, 0, 0, 0] ++ (List.replicate 4 [255, 255, 255, 255]).flatten⟩

/-- Four coincident control points: a singular perspective system. -/
def degenPts : List (ℚ × ℚ) := List.replicate 4 (0, 0)

/-- A 2×2 warp mesh over a 2×2 canvas whose top-right control point is
pulled down to `y = 4` (horizontally adjacent corners with different
`y`). -/
def mesh1 : WarpMesh := ⟨2, 2, [(0, 0), (2, 4), (0, 2), (2, 2)]⟩

/-- Expected result of concrete scenario 1: every pixel `(255,50,50,255)`. -/
def red4x4Out : Canvas := ⟨4, 4, (List.replicate 16 [255, 50, 50, 255]).flatten⟩

def strokeInv (w h : ℕ) (mask : ℕ → ℕ) (s : ℕ) (r : List ℕ) : Prop :=
  ∀ p, r.getD p 0 ≠ 0 →
    mask p = 0 ∧ reachB w h mask s (p % w) (p / w) = true

def frontierInv (w h : ℕ) (mask : ℕ → ℕ) (s : ℕ) (fr : List (ℕ × ℕ)) : Prop :=
  ∀ q ∈ fr, q.1 < w ∧ q.2 < h ∧ mask (q.2*w + q.1) = 0
    ∧ reachB w h mask s q.1 q.2 = true

theorem roundHE_intCast {α : Type} [LinearOrderedField α] [FloorRing α]
    (n : ℤ) : roundHE (n : α) = n := by
  simp [roundHE]

theorem roundHE_nonneg {α : Type} [LinearOrderedField α] [FloorRing α]
    (x : α) (hx : 0 ≤ x) : 0 ≤ roundHE x := by
  have h0 : (0:ℤ) ≤ ⌊x⌋ := Int.le_floor.2 (by exact_mod_cast hx)
  unfold roundHE
  split
  · exact h0
  · split
    · omega
    · split <;> omega

theorem roundHE_le_of_lt_half {α : Type} [LinearOrderedField α] [FloorRing α]
    (x : α) (n : ℤ) (hx : x < (n : α) + 1/2) : roundHE x ≤ n := by
  have hfl : (⌊x⌋ : α) ≤ x := Int.floor_le x
  unfold roundHE
  split
  · have h1 : (⌊x⌋ : α) < ((n + 1 : ℤ) : α) := by push_cast; linarith
    have h2 : ⌊x⌋ < n + 1 := by exact_mod_cast h1
    omega
  · rename_i hge
    have hge' : (1:α)/2 ≤ x - ⌊x⌋ := le_of_not_lt hge
    have h1 : (⌊x⌋ : α) < (n : α) := by linarith
    have h2 : ⌊x⌋ < n := by exact_mod_cast h1
    split
    · omega
    · split <;> omega

theorem clamp255_le {α : Type} [LinearOrderedField α] (x : α) :
    clamp255 x ≤ 255 :=
  max_le (by norm_num) (min_le_left _ _)

theorem clamp255_nonneg {α : Type} [LinearOrderedField α] (x : α) :
    0 ≤ clamp255 x := le_max_left _ _

theorem u8_le_255 {α : Type} [LinearOrderedField α] [FloorRing α] (x : α) :
    u8 x ≤ 255 := by
  have h : clamp255 x < (255 : α) + 1/2 :=
    lt_of_le_of_lt (clamp255_le x) (by norm_num)
  have := roundHE_le_of_lt_half (clamp255 x) 255 (by exact_mod_cast h)
  unfold u8
  omega

theorem u8_le {α : Type} [LinearOrderedField α] [FloorRing α] (x : α) (n : ℕ)
    (h : x < (n : α) + 1/2) : u8 x ≤ n := by
  have hc : clamp255 x < (n : α) + 1/2 := by
    have h1 : min 255 x ≤ x := min_le_right _ _
    have h2 : (0 : α) < (n : α) + 1/2 := by positivity
    exact max_lt h2 (lt_of_le_of_lt h1 h)
  have := roundHE_le_of_lt_half (clamp255 x) n (by exact_mod_cast hc)
  unfold u8
  omega

theorem u8_natCast {α : Type} [LinearOrderedField α] [FloorRing α] (n : ℕ)
    (h : n ≤ 255) : u8 ((n : α)) = n := by
  have hc : clamp255 ((n : α)) = (n : α) := by
    unfold clamp255
    rw [min_eq_right (by exact_mod_cast h), max_eq_right (by positivity)]
  have hint : roundHE ((n : α)) = (n : ℤ) := by
    have : ((n : ℤ) : α) = (n : α) := by push_cast; ring
    rw [← this, roundHE_intCast]
  unfold u8
  rw [hc, hint]
  omega

theorem buildData_length (n : ℕ) (f : ℕ → ℕ) : (buildData n f).length = n := by
  simp [buildData]

theorem buildData_getD (n : ℕ) (f : ℕ → ℕ) (j : ℕ) :
    (buildData n f).getD j 0 = if j < n then f j else 0 := by
  by_cases h : j < n
  · rw [List.getD_eq_getElem _ _ (by simpa [buildData] using h)]
    simp [buildData, h]
  · rw [List.getD_eq_default _ _ (by simpa [buildData] using le_of_not_lt h)]
    simp [h]

theorem rgbMapIdx_length (g : ℕ → ℕ) (d : List ℕ) :
    (rgbMapIdx g d).length = d.length := buildData_length _ _

theorem rgbMapIdx_alpha (g : ℕ → ℕ) (d : List ℕ) (j : ℕ) (hj : j % 4 = 3) :
    (rgbMapIdx g d).getD j 0 = d.getD j 0 := by
  rw [rgbMapIdx, buildData_getD]
  by_cases h : j < d.length
  · simp [h, hj]
  · rw [if_neg h, List.getD_eq_default _ _ (le_of_not_lt h)]

theorem rgbMapIdx_getD (g : ℕ → ℕ) (d : List ℕ) (j : ℕ) (hlt : j < d.length)
    (hj : j % 4 ≠ 3) : (rgbMapIdx g d).getD j 0 = g j := by
  rw [rgbMapIdx, buildData_getD]
  simp [hlt, hj]

theorem getD_set_ne (d : List ℕ) (k v j : ℕ) (h : j ≠ k) :
    (d.set k v).getD j 0 = d.getD j 0 := by
  simp [List.getD_eq_getElem?_getD, List.getElem?_set_ne (Ne.symm h)]

theorem setRGB_alpha (d : List ℕ) (p r g b j : ℕ) (hj : j % 4 = 3) :
    (setRGB d p r g b).getD j 0 = d.getD j 0 := by
  unfold setRGB
  rw [getD_set_ne _ _ _ _ (by omega), getD_set_ne _ _ _ _ (by omega),
    getD_set_ne _ _ _ _ (by omega)]

theorem setRGB_length (d : List ℕ) (p r g b : ℕ) :
    (setRGB d p r g b).length = d.length := by
  simp [setRGB]

/-- Alpha bytes survive a fold whose every step leaves them unchanged. -/
theorem foldl_alpha {β : Type} (step : List ℕ → β → List ℕ)
    (hs : ∀ d b j, j % 4 = 3 → (step d b).getD j 0 = d.getD j 0)
    (l : List β) (d : List ℕ) (j : ℕ) (hj : j % 4 = 3) :
    (l.foldl step d).getD j 0 = d.getD j 0 := by
  induction l generalizing d with
  | nil => rfl
  | cons b t ih => rw [List.foldl_cons, ih (step d b), hs d b j hj]

/-- As `foldl_alpha`, for folds that also thread a state component. -/
theorem foldl_alpha_st {β σ : Type} (step : List ℕ × σ → β → List ℕ × σ)
    (hs : ∀ a b j, j % 4 = 3 → (step a b).1.getD j 0 = a.1.getD j 0)
    (l : List β) (a : List ℕ × σ) (j : ℕ) (hj : j % 4 = 3) :
    (l.foldl step a).1.getD j 0 = a.1.getD j 0 := by
  induction l generalizing a with
  | nil => rfl
  | cons b t ih => rw [List.foldl_cons, ih (step a b), hs a b j hj]

theorem rgbFoldSt_alpha {σ : Type} (f : σ → ℕ → List ℕ → (ℕ × ℕ × ℕ) × σ)
    (s0 : σ) (d : List ℕ) (j : ℕ) (hj : j % 4 = 3) :
    (rgbFoldSt f s0 d).1.getD j 0 = d.getD j 0 := by
  unfold rgbFoldSt
  exact foldl_alpha_st _ (fun a b k hk => setRGB_alpha _ _ _ _ _ _ hk) _ _ j hj

theorem rgbFoldStOver_alpha {σ : Type} (ps : List ℕ)
    (f : σ → ℕ → List ℕ → (ℕ × ℕ × ℕ) × σ) (s0 : σ) (d : List ℕ) (j : ℕ)
    (hj : j % 4 = 3) : (rgbFoldStOver ps f s0 d).1.getD j 0 = d.getD j 0 := by
  unfold rgbFoldStOver
  exact foldl_alpha_st _ (fun a b k hk => setRGB_alpha _ _ _ _ _ _ hk) _ _ j hj

theorem clampIdx_one (x k r : ℕ) : clampIdx 1 x k r = 0 := by
  unfold clampIdx
  omega

/-! ## Claims -/

/-- C1: for every source image and with no `maxSize` resizing,
`applyFilters` with the all-default parameter record (`defaultFilters`:
every effect off or at its neutral value) returns a buffer whose pixel
data is identical to the rasterized input at every pixel and channel. -/
theorem applyFilters_defaults_identity (R : RenderOps) (rand : Rand)
    (img : Canvas) : applyFilters R rand img defaultFilters none = img := rfl

/-- C9: for every filter parameter set and every source buffer taken with
no resizing (and no global hue rotation or layer saturation),
`processFiltersFromCanvas` applies exactly the same filter operations in
exactly the same order as `applyFilters`, so the two entry points agree on
identical inputs. -/
theorem processFiltersFromCanvas_eq_applyFilters (R : RenderOps)
    (rand : Rand) (c : Canvas) (filters : LayerFilters) :
    processFiltersFromCanvas R rand c filters none none none
      = applyFilters R rand c filters none := rfl

set_option maxRecDepth 8192
set_option maxHeartbeats 1000000

/-- C4: whenever the 8-unknown linear system built from the four
source/destination control-point pairs is singular (some pivot magnitude
during Gaussian elimination with partial pivoting drops below `1e-10`,
i.e. the solver returns `none`), `computePerspectiveTransform` returns the
identity matrix and never propagates an error. -/
theorem computePerspective_singular_identity (src dst : List (ℚ × ℚ))
    (h : solveLinearSystem (perspectiveSystem src dst).1
      (perspectiveSystem src dst).2 = none) :
    computePerspectiveTransform src dst = [1, 0, 0, 0, 1, 0, 0, 0, 1] := by
  have e : computePerspectiveTransform src dst
      = match solveLinearSystem (perspectiveSystem src dst).1
          (perspectiveSystem src dst).2 with
        | none => [1, 0, 0, 0, 1, 0, 0, 0, 1]
        | some result => result ++ [1] := rfl
  rw [e, h]

theorem computePerspective_singular_identity_witness :
    solveLinearSystem (perspectiveSystem degenPts degenPts).1
        (perspectiveSystem degenPts degenPts).2 = none
      ∧ computePerspectiveTransform degenPts degenPts
        = [1, 0, 0, 0, 1, 0, 0, 0, 1] := by
  have h : solveLinearSystem (perspectiveSystem degenPts degenPts).1
      (perspectiveSystem degenPts degenPts).2 = none := by
    norm_num [solveLinearSystem, gaussForward, pivotSearch, getEl,
      perspectiveSystem, degenPts, List.range_succ, List.range'_succ,
      List.mapIdx_cons, List.mapIdx_nil, List.getD_cons_zero,
      List.getD_cons_succ, List.foldl_cons, List.foldl_nil]
  exact ⟨h, computePerspective_singular_identity _ _ h⟩
theorem red4x4_data_eq :
    red4x4.data = buildData 64 (fun j => if j % 4 = 1 ∨ j % 4 = 2 then 0 else 255) := by
  decide

theorem red4x4Out_data_eq :
    red4x4Out.data = buildData 64 (fun j => if j % 4 = 1 ∨ j % 4 = 2 then 50 else 255) := by
  decide

/-- C5: for every channel value `v` and parameters brightness `b` and
contrast `ct`, the Brightness/Contrast filter stores
`clamp(f*(v-128)+128+b)` with `f = 259(ct+255)/(255(259-ct))`; and the
4×4 fully opaque red buffer with `brightness = 50, contrast = 0` becomes
`(255, 50, 50, 255)` at every pixel. -/
theorem brightnessContrast_formula_scenario (c : Canvas) (b ct : ℚ) (j : ℕ)
    (hlt : j < c.data.length) (hch : j % 4 ≠ 3) :
    (applyBrightnessContrast c b ct).data.getD j 0
      = u8 (max 0 (min 255 ((259 * (ct + 255)) / (255 * (259 - ct))
          * ((byteAt c.data j : ℚ) - 128) + 128 + b)))
    ∧ applyBrightnessContrast red4x4 50 0 = red4x4Out := by
  constructor
  · exact rgbMapIdx_getD _ _ _ hlt hch
  · show Canvas.mk 4 4 _ = red4x4Out
    rw [show red4x4Out = ⟨4, 4, red4x4Out.data⟩ from rfl]
    congr 1
    apply List.ext_getElem
    · rw [rgbMapIdx_length, red4x4_data_eq, red4x4Out_data_eq,
        buildData_length, buildData_length]
    · intro i h1 h2
      rw [← List.getD_eq_getElem _ 0 h1, ← List.getD_eq_getElem _ 0 h2]
      have hi : i < 64 := by
        have := h2
        rw [red4x4Out_data_eq, buildData_length] at this
        exact this
      have hbyte : ∀ k, byteAt red4x4.data k
          = if k < 64 then (if k % 4 = 1 ∨ k % 4 = 2 then 0 else 255) else 0 := by
        intro k
        rw [byteAt, red4x4_data_eq, buildData_getD]
      have hout : red4x4Out.data.getD i 0
          = if i % 4 = 1 ∨ i % 4 = 2 then 50 else 255 := by
        rw [red4x4Out_data_eq, buildData_getD, if_pos hi]
      have hlen : i < red4x4.data.length := by
        rw [red4x4_data_eq, buildData_length]; exact hi
      rcases (by omega : i % 4 = 3 ∨ ¬ i % 4 = 3) with h3 | h3
      · rw [hout, if_neg (by omega)]
        rw [rgbMapIdx_alpha _ _ _ h3]
        have hb := hbyte i
        rw [byteAt] at hb
        rw [hb, if_pos hi, if_neg (by omega)]
      · rw [rgbMapIdx_getD _ _ _ hlen h3, hout, hbyte, if_pos hi]
        rcases (by omega : i % 4 = 1 ∨ i % 4 = 2 ∨ (¬ (i % 4 = 1 ∨ i % 4 = 2) ∧ ¬ i % 4 = 3)) with h | h | h
        · rw [if_pos (Or.inl h), if_pos (Or.inl h)]
          norm_num [u8, roundHE, clamp255] <;> omega
        · rw [if_pos (Or.inr h), if_pos (Or.inr h)]
          norm_num [u8, roundHE, clamp255] <;> omega
        · rw [if_neg h.1, if_neg h.1]
          norm_num [u8, roundHE, clamp255] <;> omega

theorem brightnessContrast_formula_scenario_witness :
    (0 < red4x4.data.length ∧ 0 % 4 ≠ 3)
    ∧ applyBrightnessContrast red4x4 50 0 = red4x4Out :=
  ⟨⟨by decide, by decide⟩,
    (brightnessContrast_formula_scenario red4x4 50 0 0 (by decide)
      (by decide)).2⟩

/-- C10: `applyLevels` is total for all black/white parameter values: the
LUT divisor is `max(1, white - black)` (never zero, even when
`white ≤ black`), and every LUT entry is the defined rounded value in
`[0, 255]` (no wraparound in the `Uint8Array` store). -/
theorem levels_total (black white gamma : ℚ) (i : ℕ) (hg : 0 < gamma) :
    1 ≤ levelsRange black white ∧ levelsRange black white ≠ 0
    ∧ lutEntry black white gamma i ≤ 255
    ∧ lutEntry black white gamma i
      = (jsRound (clamp01 (((i:ℝ) - (black:ℝ)) / (levelsRange black white : ℝ))
          ^ ((1:ℝ)/(gamma:ℝ)) * 255)).toNat := by
  have h1 : (1:ℚ) ≤ levelsRange black white := le_max_left _ _
  have hv0 : (0:ℝ) ≤ clamp01 (((i:ℝ) - (black:ℝ)) / (levelsRange black white : ℝ)) :=
    le_max_left _ _
  have hv1 : clamp01 (((i:ℝ) - (black:ℝ)) / (levelsRange black white : ℝ)) ≤ 1 :=
    max_le (by norm_num) (min_le_left _ _)
  have hp0 : (0:ℝ) ≤ clamp01 (((i:ℝ) - (black:ℝ)) / (levelsRange black white : ℝ))
      ^ ((1:ℝ)/(gamma:ℝ)) := Real.rpow_nonneg hv0 _
  have hp1 : clamp01 (((i:ℝ) - (black:ℝ)) / (levelsRange black white : ℝ))
      ^ ((1:ℝ)/(gamma:ℝ)) ≤ 1 :=
    Real.rpow_le_one hv0 hv1 (by positivity)
  have hr0 : (0:ℤ) ≤ jsRound (clamp01 (((i:ℝ) - (black:ℝ))
      / (levelsRange black white : ℝ)) ^ ((1:ℝ)/(gamma:ℝ)) * 255) := by
    unfold jsRound
    apply Int.floor_nonneg.2
    nlinarith
  have hr255 : jsRound (clamp01 (((i:ℝ) - (black:ℝ))
      / (levelsRange black white : ℝ)) ^ ((1:ℝ)/(gamma:ℝ)) * 255) ≤ 255 := by
    unfold jsRound
    have hlt : clamp01 (((i:ℝ) - (black:ℝ)) / (levelsRange black white : ℝ))
        ^ ((1:ℝ)/(gamma:ℝ)) * 255 + 1/2 < ((256:ℤ):ℝ) := by
      push_cast
      nlinarith
    have := Int.floor_lt.2 hlt
    omega
  have key : lutEntry black white gamma i
      = (jsRound (clamp01 (((i:ℝ) - (black:ℝ)) / (levelsRange black white : ℝ))
          ^ ((1:ℝ)/(gamma:ℝ)) * 255)).toNat := by
    simp only [lutEntry]
    rw [Int.emod_eq_of_lt hr0 (by omega)]
  refine ⟨h1, by intro h; rw [h] at h1; norm_num at h1, ?_, key⟩
  rw [key]
  omega

theorem levels_total_witness :
    (0:ℚ) < 1 ∧ 1 ≤ levelsRange 200 100 ∧ lutEntry 200 100 1 0 ≤ 255 := by
  refine ⟨by norm_num, ?_, ?_⟩
  · exact (levels_total 200 100 1 0 (by norm_num)).1
  · exact (levels_total 200 100 1 0 (by norm_num)).2.2.1

/-- C7 counterexample: on a 2×1 fully opaque buffer,
`applyGradientFade(direction = 0, amount = 100)` leaves the rightmost
column with alpha `round(255 * (1 - 1/2)) = 128`, not `0`. -/
theorem gradientFade_rightmost_counterexample :
    byteAt (applyGradientFade ctrFade 0 100).data 7 = 128 ∧ (128 : ℕ) ≠ 0 := by
  refine ⟨?_, by norm_num⟩
  have hlen : ctrFade.data.length = 8 := rfl
  unfold applyGradientFade byteAt
  rw [buildData_getD, hlen]
  norm_num [fadeT, ctrFade, byteAt, jsRound]
  omega

/-- C7 (amended): `applyGradientFade(direction = 0, amount = 100)` on a
fully opaque buffer keeps every leftmost-column alpha at `255`, and sets
every rightmost-column alpha to `round(255 / width)` (which is `0` only
for widths ≥ 511, e.g. `128` at width 2). -/
theorem gradientFade_left_right_columns (c : Canvas) (y : ℕ)
    (hop : ∀ p, p < c.width * c.height → byteAt c.data (4*p+3) = 255)
    (hw : 0 < c.width) (hy : y < c.height)
    (hlen : c.data.length = c.width * c.height * 4) :
    byteAt (applyGradientFade c 0 100).data (4*(y*c.width) + 3) = 255
    ∧ byteAt (applyGradientFade c 0 100).data
        (4*(y*c.width + (c.width - 1)) + 3)
      = (jsRound ((255:ℝ) / (c.width:ℝ))).toNat := by
  have hwh : ∀ x, x < c.width → y * c.width + x < c.width * c.height := by
    intro x hx
    calc y * c.width + x < (y + 1) * c.width := by nlinarith
    _ ≤ c.height * c.width := Nat.mul_le_mul_right _ (by omega)
    _ = c.width * c.height := Nat.mul_comm _ _
  constructor
  · have hp : y * c.width < c.width * c.height := by
      have := hwh 0 hw
      omega
    have ha := hop (y * c.width) hp
    unfold byteAt
    unfold applyGradientFade
    rw [buildData_getD, hlen, if_pos (by nlinarith)]
    rw [if_pos (show (4*(y*c.width) + 3) % 4 = 3 by omega),
      show (4*(y*c.width) + 3) / 4 = y * c.width by omega,
      Nat.mul_mod_left, ha]
    norm_num [fadeT, jsRound]
    decide
  · have hp : y * c.width + (c.width - 1) < c.width * c.height :=
      hwh (c.width - 1) (by omega)
    have ha := hop _ hp
    unfold byteAt
    unfold applyGradientFade
    rw [buildData_getD, hlen, if_pos (by nlinarith)]
    rw [if_pos (show (4*(y*c.width + (c.width - 1)) + 3) % 4 = 3 by omega),
      show (4*(y*c.width + (c.width - 1)) + 3) / 4
        = y * c.width + (c.width - 1) by omega]
    have hx : (y * c.width + (c.width - 1)) % c.width = c.width - 1 := by
      rw [Nat.add_comm, Nat.add_mul_mod_self_right]
      exact Nat.mod_eq_of_lt (by omega)
    rw [hx, ha]
    have hwR : (0:ℝ) < (c.width:ℝ) := by exact_mod_cast hw
    have hcast : ((c.width - 1 : ℕ) : ℝ) = (c.width:ℝ) - 1 := by
      push_cast [Nat.cast_sub (show 1 ≤ c.width by omega)]
      ring
    have hfade : fadeT c.width c.height (c.width - 1)
        ((y * c.width + (c.width - 1)) / c.width) 0
        = ((c.width:ℝ) - 1) / c.width := by
      unfold fadeT
      rw [hcast]
    rw [hfade]
    have hin : (1:ℝ) - ((c.width:ℝ) - 1) / (c.width:ℝ) * (((100:ℚ):ℝ) / 100)
        = 1 / c.width := by
      push_cast
      field_simp
    rw [hin, max_eq_right (by positivity : (0:ℝ) ≤ 1 / (c.width:ℝ))]
    rw [show ((255:ℕ):ℝ) * (1 / (c.width:ℝ)) = 255 / c.width from by
      push_cast
      ring]
    have h0 : (0:ℤ) ≤ jsRound ((255:ℝ) / c.width) := by
      unfold jsRound
      apply Int.floor_nonneg.2
      positivity
    have h255 : jsRound ((255:ℝ) / c.width) ≤ 255 := by
      unfold jsRound
      have hle : (255:ℝ) / c.width ≤ 255 := by
        rw [div_le_iff₀ hwR]
        nlinarith
      have hlt : (255:ℝ) / c.width + 1/2 < ((256:ℤ):ℝ) := by
        push_cast
        linarith
      have := Int.floor_lt.2 hlt
      omega
    omega

theorem gradientFade_left_right_columns_witness :
    (0 < ctrFade.width ∧ 0 < ctrFade.height
      ∧ ctrFade.data.length = ctrFade.width * ctrFade.height * 4)
    ∧ byteAt (applyGradientFade ctrFade 0 100).data
        (4*(0*ctrFade.width) + 3) = 255 :=
  ⟨⟨by decide, by decide, by decide⟩,
    (gradientFade_left_right_columns ctrFade 0 (by decide) (by decide)
      (by decide) (by decide)).1⟩

/-- C6 counterexample: at `radius = 10` the motion blur runs
`mSteps = 20` accumulation steps, and the step-0 offset multiplier is
`t = -1/2`, not the `(0/20 - 1/2) * 10 = -5` that "t spanning
[-radius/2, radius/2]" requires. -/
theorem motionBlur_t_counterexample :
    motionSteps 10 = 20
    ∧ motionT 10 0 = -(1/2)
    ∧ ((0:ℚ)/(motionSteps 10) - 1/2) * 10 = -5
    ∧ motionT 10 0 ≠ ((0:ℚ)/(motionSteps 10) - 1/2) * 10 := by
  have h20 : motionSteps 10 = 20 := by
    unfold motionSteps jsRound
    norm_num
    decide
  have ht : motionT 10 0 = -(1/2) := by
    unfold motionT
    rw [h20]
    norm_num
  refine ⟨h20, ht, by rw [h20]; norm_num, by rw [ht, h20]; norm_num⟩

/-- C6 (amended): for every `radius > 0` and every angle, motion blur
accumulates `N = min(round(radius*2), 40)` copies of the source along the
angle direction, each drawn at `1/N` opacity and offset by
`t·(cos θ, sin θ)` with `t = (i/N - 1/2) · (2·radius/N)` — i.e. `t`
spans `[-radius/N, radius/N)`, not `[-radius/2, radius/2]`. -/
theorem motionBlur_schedule (radius angle : ℚ) (i : ℕ) (hr : 0 < radius)
    (hi : i < motionSteps radius) :
    (motionDraws radius angle)[i]?
      = some (1 / (motionSteps radius : ℝ),
          ((((i:ℚ)/(motionSteps radius) - 1/2)
              * (2*radius/(motionSteps radius)) : ℚ) : ℝ)
            * Real.cos ((angle:ℝ) * Real.pi / 180),
          ((((i:ℚ)/(motionSteps radius) - 1/2)
              * (2*radius/(motionSteps radius)) : ℚ) : ℝ)
            * Real.sin ((angle:ℝ) * Real.pi / 180))
    ∧ (motionDraws radius angle).length = motionSteps radius := by
  have hN : ((motionSteps radius : ℕ) : ℚ) ≠ 0 :=
    Nat.cast_ne_zero.2 (by omega)
  have hr' : radius ≠ 0 := ne_of_gt hr
  have ht : motionT radius i
      = ((i:ℚ)/(motionSteps radius) - 1/2)
          * (2*radius/(motionSteps radius)) := by
    simp only [motionT]
    rw [show radius * 2 / ((motionSteps radius : ℕ) : ℚ) / radius
        = 2 / ((motionSteps radius : ℕ) : ℚ) from by field_simp; ring]
    rw [if_neg (div_ne_zero (by norm_num) hN)]
    field_simp
    ring
  constructor
  · unfold motionDraws
    simp only [List.getElem?_map, List.getElem?_range hi, Option.map_some']
    rw [ht]
  · unfold motionDraws
    simp

theorem motionBlur_schedule_witness :
    ((0:ℚ) < 10 ∧ 0 < motionSteps 10)
    ∧ (motionDraws 10 0).length = motionSteps 10 := by
  have h20 : motionSteps 10 = 20 := by
    unfold motionSteps jsRound
    norm_num
    decide
  exact ⟨⟨by norm_num, by omega⟩,
    (motionBlur_schedule 10 0 0 (by norm_num) (by omega)).2⟩

/-- Alpha bytes survive `buildData` rebuilds whose alpha branch copies the
source byte. -/
theorem buildData_alpha (n : ℕ) (d : List ℕ) (f : ℕ → ℕ) (hn : n = d.length)
    (hf : ∀ j, j % 4 = 3 → f j = byteAt d j) (j : ℕ) (hj : j % 4 = 3) :
    (buildData n f).getD j 0 = d.getD j 0 := by
  rw [buildData_getD, hn]
  by_cases h : j < d.length
  · rw [if_pos h, hf j hj]
    rfl
  · rw [if_neg h, List.getD_eq_default _ _ (le_of_not_lt h)]

theorem rgbPointwise_alpha (f : ℕ → ℕ × ℕ × ℕ → ℕ × ℕ × ℕ) (d : List ℕ)
    (j : ℕ) (hj : j % 4 = 3) :
    (rgbPointwise f d).getD j 0 = d.getD j 0 := rgbMapIdx_alpha _ _ _ hj

theorem fillBlock_alpha (src : List ℕ) (w h : ℕ) (pixels : List (ℕ × ℕ))
    (x0 y0 x1 y1 : ℕ) (d : List ℕ) (j : ℕ) (hj : j % 4 = 3) :
    (fillBlock src w h pixels x0 y0 x1 y1 d).getD j 0 = d.getD j 0 := by
  unfold fillBlock
  unfold_let
  repeat' split
  all_goals
    repeat first
      | rfl
      | rw [foldl_alpha _ (fun dd q k hk => setRGB_alpha _ _ _ _ _ _ hk)
          _ _ _ hj]

theorem gaussR_one : gaussR 1 = 3 := by
  unfold gaussR
  norm_num
  rw [show (⌈(5/2:ℝ)⌉ : ℤ) = 3 from by rw [Int.ceil_eq_iff]; norm_num]
  rfl

theorem gaussSum_one_pos : 0 < gaussSum 1 := by
  unfold gaussSum
  apply Finset.sum_pos (fun k _ => Real.exp_pos _)
  exact Finset.nonempty_range_iff.mpr (by positivity)

theorem gaussSum_one_le : gaussSum 1 ≤ 7 := by
  unfold gaussSum
  rw [gaussR_one]
  have hb : ∀ k ∈ Finset.range 7, gaussWeight 1 k ≤ 1 := by
    intro k _
    unfold gaussWeight
    rw [Real.exp_le_one_iff]
    have : (0:ℝ) ≤ ((k:ℝ) - gaussR 1)^2 / (2 * ((1:ℚ):ℝ)^2) := by positivity
    linarith
  calc Finset.sum (Finset.range 7) (gaussWeight 1)
      ≤ (Finset.range 7).card • (1:ℝ) := Finset.sum_le_card_nsmul _ _ _ hb
    _ = 7 := by simp

theorem exp_negHalf_gt : (1/3 : ℝ) < Real.exp (-(1/2)) := by
  have he1 : Real.exp 1 < 3 := lt_trans Real.exp_one_lt_d9 (by norm_num)
  have he2 : Real.exp (-(1:ℝ)) ≤ Real.exp (-(1/2)) :=
    Real.exp_le_exp.mpr (by norm_num)
  have he3 : Real.exp (-(1:ℝ)) = (Real.exp 1)⁻¹ := Real.exp_neg 1
  have he4 : (1/3:ℝ) < (Real.exp 1)⁻¹ := by
    nlinarith [mul_inv_cancel₀ (ne_of_gt (Real.exp_pos 1)), Real.exp_pos 1]
  linarith

theorem gaussKernel_one_pos (k : ℕ) : 0 < gaussKernel 1 k :=
  div_pos (Real.exp_pos _) gaussSum_one_pos

theorem gaussKernel_one_sum :
    Finset.sum (Finset.range 7) (gaussKernel 1) = 1 := by
  unfold gaussKernel
  rw [← Finset.sum_div]
  rw [show Finset.sum (Finset.range 7) (gaussWeight 1) = gaussSum 1 from by
    unfold gaussSum; rw [gaussR_one]]
  exact div_self (ne_of_gt gaussSum_one_pos)

theorem gaussKernel_one_four : (1/510 : ℝ) < gaussKernel 1 4 := by
  have hw : gaussWeight 1 4 = Real.exp (-(1/2)) := by
    unfold gaussWeight
    rw [gaussR_one]
    norm_num
  unfold gaussKernel
  rw [hw]
  have h1 : Real.exp (-(1/2)) / gaussSum 1 ≥ Real.exp (-(1/2)) / 7 :=
    div_le_div_of_nonneg_left (le_of_lt (Real.exp_pos _)) gaussSum_one_pos
      gaussSum_one_le
  have h2 : (1/510 : ℝ) < Real.exp (-(1/2)) / 7 := by
    have := exp_negHalf_gt
    linarith
  linarith

theorem gaussCtr_h :
    byteAt (gaussBlurPass 2 1 1 true ctrGauss.data) 3
      = u8 ((255:ℝ) * (gaussKernel 1 0 + gaussKernel 1 1 + gaussKernel 1 2
          + gaussKernel 1 3)) := by
  unfold byteAt gaussBlurPass
  rw [buildData_getD, if_pos (by decide : (3:ℕ) < ctrGauss.data.length)]
  rw [gaussR_one]
  rw [show (2*3+1 : ℕ) = 7 from rfl]
  simp only [Finset.sum_range_succ, Finset.sum_range_zero]
  norm_num [clampIdx, byteAt, ctrGauss, List.getD_cons_zero, List.getD_cons_succ]
  congr 1
  ring

theorem gaussBlurPass_vert_alpha (d : List ℕ) (hlen : 3 < d.length)
    (hb : byteAt d 3 ≤ 255) :
    byteAt (gaussBlurPass 2 1 1 false d) 3 = byteAt d 3 := by
  unfold byteAt gaussBlurPass
  rw [buildData_getD, if_pos hlen, gaussR_one]
  norm_num [clampIdx_one]
  rw [← Finset.mul_sum, gaussKernel_one_sum, mul_one,
    ← List.getD_eq_getElem?_getD]
  exact @u8_natCast ℝ _ _ (byteAt d 3) hb

/-- C2 (counterexample): Gaussian blur (blur type 1) does not preserve the
alpha channel. On the 2×1 canvas `ctrGauss` whose left pixel is opaque and
whose right pixel is transparent, blur type 1 at radius 1 changes the left
pixel's alpha (it averages the two alphas under the Gaussian kernel,
yielding a value of at most 254 in place of 255). -/
theorem gaussianBlur_alpha_counterexample :
    byteAt (applyNewBlur trivialRender ctrGauss 1 1 0).data 3
      ≠ byteAt ctrGauss.data 3 := by
  have hd : applyNewBlur trivialRender ctrGauss 1 1 0
      = gaussianBlur ctrGauss 1 := by
    have e : applyNewBlur trivialRender ctrGauss 1 1 0
        = if (1:ℚ) ≤ 0 ∨ (1:ℕ) = 0 then ctrGauss
          else gaussianBlur ctrGauss 1 := rfl
    rw [e, if_neg (by norm_num)]
  have hlen : 3 < (gaussBlurPass 2 1 1 true ctrGauss.data).length := by
    unfold gaussBlurPass
    rw [buildData_length]
    decide
  have hb : byteAt (gaussBlurPass 2 1 1 true ctrGauss.data) 3 ≤ 255 := by
    rw [gaussCtr_h]
    exact u8_le_255 _
  have e2 : byteAt (gaussianBlur ctrGauss 1).data 3
      = byteAt (gaussBlurPass 2 1 1 false
          (gaussBlurPass 2 1 1 true ctrGauss.data)) 3 := rfl
  have hbound : u8 ((255:ℝ) * (gaussKernel 1 0 + gaussKernel 1 1
      + gaussKernel 1 2 + gaussKernel 1 3)) ≤ 254 := by
    apply u8_le
    have hs : gaussKernel 1 0 + gaussKernel 1 1 + gaussKernel 1 2
        + gaussKernel 1 3 + gaussKernel 1 4 + gaussKernel 1 5
        + gaussKernel 1 6 = 1 := by
      have h7 := gaussKernel_one_sum
      simp [Finset.sum_range_succ] at h7
      linarith
    have h4 := gaussKernel_one_four
    have h5 := gaussKernel_one_pos 5
    have h6 := gaussKernel_one_pos 6
    push_cast
    nlinarith
  have h255 : byteAt ctrGauss.data 3 = 255 := by decide
  rw [hd, e2, gaussBlurPass_vert_alpha _ hlen hb, gaussCtr_h, h255]
  omega

/-- C2 (amended): the filters brightness/contrast, hue/sat/temp, box blur
(blur type 2), noise (all types), posterize, invert, levels, oil paint,
metal, palette knife, texture (all modes) and facet (all modes) leave the
alpha channel unchanged at every pixel. (The original claim also asserted
this for the other blur types; Gaussian blur convolves the alpha channel —
see the counterexample — and motion/radial blur recomposite the canvas at
partial opacity.) -/
theorem alpha_preservation_amended (c : Canvas) (p : ℕ) :
    (∀ b ct, byteAt (applyBrightnessContrast c b ct).data (4*p+3)
      = byteAt c.data (4*p+3))
    ∧ (∀ hs ss ts, byteAt (applyHueSatTemp c hs ss ts).data (4*p+3)
      = byteAt c.data (4*p+3))
    ∧ (∀ R radius angle, byteAt (applyNewBlur R c 2 radius angle).data (4*p+3)
      = byteAt c.data (4*p+3))
    ∧ (∀ rand type amount density pos,
      byteAt (applyNewNoise rand c type amount density pos).1.data (4*p+3)
        = byteAt c.data (4*p+3))
    ∧ (∀ levels, byteAt (applyPosterize c levels).data (4*p+3)
      = byteAt c.data (4*p+3))
    ∧ byteAt (applyInvert c).data (4*p+3) = byteAt c.data (4*p+3)
    ∧ (∀ black white gamma mono,
      byteAt (applyLevels c black white gamma mono).data (4*p+3)
        = byteAt c.data (4*p+3))
    ∧ (∀ radius levels, byteAt (applyOilPaint c radius levels).data (4*p+3)
      = byteAt c.data (4*p+3))
    ∧ (∀ intensity, byteAt (applyMetal c intensity).data (4*p+3)
      = byteAt c.data (4*p+3))
    ∧ (∀ len dir, byteAt (applyPaletteKnife c len dir).data (4*p+3)
      = byteAt c.data (4*p+3))
    ∧ (∀ rand mode intensity pos,
      byteAt (applyTextureFilter rand c mode intensity pos).1.data (4*p+3)
        = byteAt c.data (4*p+3))
    ∧ (∀ rand mode size pos,
      byteAt (applyFacet rand c mode size pos).1.data (4*p+3)
        = byteAt c.data (4*p+3)) := by
  have hj : (4*p+3) % 4 = 3 := by omega
  have hne : ∀ n : ℕ, ¬ (n + 1 = 0) := fun n => Nat.succ_ne_zero n
  unfold byteAt
  refine ⟨?_, ?_, ?_, ?_, ?_, ?_, ?_, ?_, ?_, ?_, ?_, ?_⟩
  · intro b ct
    exact rgbMapIdx_alpha _ _ _ hj
  · intro hs ss ts
    exact rgbPointwise_alpha (fun _ v =>
      let r : ℚ := v.1
      let g : ℚ := v.2.1
      let b : ℚ := v.2.2
      let r := if ts ≠ 0 then max 0 (min 255 (r + ts * (4/5))) else r
      let b := if ts ≠ 0 then max 0 (min 255 (b - ts * (4/5))) else b
      let hsl := rgbToHsl r g b
      let newH := hsl.1 + hs
      let newS := max 0 (min 1 (hsl.2.1 * (1 + ss / 100)))
      let n := hslToRgb newH newS hsl.2.2
      (u8 (n.1 : ℚ), u8 (n.2.1 : ℚ), u8 (n.2.2 : ℚ))) _ _ hj
  · intro R radius angle
    unfold applyNewBlur
    split
    · rfl
    · show (boxBlur c radius).data.getD _ 0 = _
      unfold boxBlur boxBlurPass
      rw [rgbMapIdx_alpha _ _ _ hj, rgbMapIdx_alpha _ _ _ hj]
  · intro rand type amount density pos
    unfold applyNewNoise
    split
    · rfl
    · unfold_let
      split
      all_goals first
        | rfl
        | exact rgbFoldSt_alpha _ _ _ _ hj
  · intro levels
    exact rgbMapIdx_alpha _ _ _ hj
  · exact rgbMapIdx_alpha _ _ _ hj
  · intro black white gamma mono
    exact rgbMapIdx_alpha _ _ _ hj
  · intro radius levels
    unfold applyOilPaint
    unfold_let
    apply buildData_alpha _ _ _ rfl _ _ hj
    intro j hjj
    simp only [hjj]
    rfl
  · intro intensity
    unfold applyMetal
    unfold_let
    rw [rgbPointwise_alpha _ _ _ hj, rgbMapIdx_alpha _ _ _ hj]
  · intro len dir
    unfold applyPaletteKnife
    unfold_let
    apply buildData_alpha _ _ _ rfl _ _ hj
    intro j hjj
    simp only [hjj]
    rfl
  · intro rand mode intensity pos
    rcases mode with _ | _ | _ | _ | _ | _ | _ | m
    · rfl
    · simp only [applyTextureFilter, if_neg (hne 0)]
      rw [rgbMapIdx_alpha _ _ _ hj]
    · simp only [applyTextureFilter, if_neg (hne 1)]
      rw [rgbFoldStOver_alpha _ _ _ _ _ hj, rgbFoldSt_alpha _ _ _ _ hj]
    · simp only [applyTextureFilter, if_neg (hne 2)]
      rw [rgbFoldSt_alpha _ _ _ _ hj]
    · simp only [applyTextureFilter, if_neg (hne 3)]
      apply buildData_alpha _ _ _ rfl ?_ _ hj
      intro j hjj
      simp only [hjj]
      rfl
    · simp only [applyTextureFilter, if_neg (hne 4)]
      rw [rgbMapIdx_alpha _ _ _ hj]
    · simp only [applyTextureFilter, if_neg (hne 5)]
      rw [rgbFoldSt_alpha _ _ _ _ hj]
    · rfl
  · intro rand mode size pos
    rcases mode with _ | _ | _ | _ | _ | m
    · rfl
    · simp only [applyFacet]
      apply foldl_alpha_st _ ?_ _ _ _ hj
      intro a b' k hk
      apply foldl_alpha_st _ ?_ _ _ _ hk
      intro a2 bx k2 hk2
      exact fillBlock_alpha _ _ _ _ _ _ _ _ _ _ hk2
    · simp only [applyFacet]
      apply foldl_alpha _ ?_ _ _ _ hj
      intro a b' k hk
      apply foldl_alpha _ ?_ _ _ _ hk
      intro a2 bx k2 hk2
      rw [fillBlock_alpha _ _ _ _ _ _ _ _ _ _ hk2,
        fillBlock_alpha _ _ _ _ _ _ _ _ _ _ hk2]
    · simp only [applyFacet]
      rw [rgbMapIdx_alpha _ _ _ hj]
    · simp only [applyFacet]
      apply foldl_alpha _ ?_ _ _ _ hj
      intro a b' k hk
      apply foldl_alpha _ ?_ _ _ _ hk
      intro a2 bx k2 hk2
      rw [foldl_alpha _ ?_ _ _ _ hk2]
      · split
        · exact fillBlock_alpha _ _ _ _ _ _ _ _ _ _ hk2
        · rfl
      · intro dd q k3 hk3
        split
        · exact setRGB_alpha _ _ _ _ _ _ hk3
        · rfl
    · rfl

/-- C8: on the mesh `mesh1` (top-right control point pulled to `y = 4`),
the source's sample position for destination pixel `(1, 0)` is `(1, 0)`,
whereas the bilinear interpolation of the four corner positions at the
pixel's fractional cell position `(1/2, 0)` is `(1, 2)`: the `bilinear`
helper interpolates the y-coordinate with `ty` in both lerps (the `tx`
fraction is unused for `y`), so the sample coordinate is not the bilinear
interpolation the code's own comment describes. -/
theorem warpMesh_y_not_bilinear :
    warpSrcPos 2 2 mesh1 1 0 = (1, 0)
    ∧ bilerpPointSpec (1/2) 0 (0, 0) (2, 4) (0, 2) (2, 2) = (1, 2)
    ∧ warpSrcPos 2 2 mesh1 1 0
      ≠ bilerpPointSpec (1/2) 0 (0, 0) (2, 4) (0, 2) (2, 2) := by
  norm_num [warpSrcPos, meshBilinear, getPoint, bilerpPointSpec, mesh1,
    Prod.ext_iff]
theorem foldl_inv {α β : Type} (step : α → β → α) (Q : α → Prop) :
    ∀ (l : List β) (a0 : α), (∀ a b, b ∈ l → Q a → Q (step a b)) → Q a0 →
      Q (l.foldl step a0)
  | [], _, _, h0 => h0
  | b :: bs, a0, hstep, h0 =>
    foldl_inv step Q bs (step a0 b)
      (fun a b' hb' ha => hstep a b' (List.mem_cons_of_mem _ hb') ha)
      (hstep a0 b (List.mem_cons_self _ _) h0)

theorem reachB_succ (w h : ℕ) (mask : ℕ → ℕ) (s x y : ℕ) :
    reachB w h mask (s+1) x y
      = (reachB w h mask s x y ||
         (neighbors4 x y).any (fun np =>
           decide (0 ≤ np.1 ∧ np.1 < (w:ℤ) ∧ 0 ≤ np.2 ∧ np.2 < (h:ℤ)) &&
             reachB w h mask s np.1.toNat np.2.toNat)) := rfl

theorem reachB_step (w h : ℕ) (mask : ℕ → ℕ) (s x y : ℕ)
    (hr : reachB w h mask s x y = true) :
    reachB w h mask (s+1) x y = true := by
  rw [reachB_succ, hr, Bool.true_or]

theorem reachB_mono (w h : ℕ) (mask : ℕ → ℕ) {s t : ℕ} (hst : s ≤ t)
    (x y : ℕ) (hr : reachB w h mask s x y = true) :
    reachB w h mask t x y = true := by
  induction t with
  | zero =>
    have : s = 0 := Nat.le_zero.mp hst
    subst this
    exact hr
  | succ t ih =>
    by_cases hs : s = t + 1
    · subst hs
      exact hr
    · exact reachB_step w h mask t x y (ih (by omega))

theorem reachB_neighbor (w h : ℕ) (mask : ℕ → ℕ) (s fx fy : ℕ)
    (hfx : fx < w) (hfy : fy < h)
    (hr : reachB w h mask s fx fy = true) (np : ℤ × ℤ)
    (hnp : np ∈ neighbors4 fx fy)
    (hb : 0 ≤ np.1 ∧ np.1 < (w:ℤ) ∧ 0 ≤ np.2 ∧ np.2 < (h:ℤ)) :
    reachB w h mask (s+1) np.1.toNat np.2.toNat = true := by
  obtain ⟨hb1, hb2, hb3, hb4⟩ := hb
  rw [reachB_succ]
  simp only [Bool.or_eq_true]
  right
  rw [List.any_eq_true]
  refine ⟨((fx:ℤ), (fy:ℤ)), ?_, ?_⟩
  · simp only [neighbors4, List.mem_cons, List.not_mem_nil, or_false] at hnp ⊢
    rcases hnp with h1 | h1 | h1 | h1 <;> subst h1 <;> dsimp only at hb1 hb2 hb3 hb4 ⊢
    · refine Or.inr (Or.inl ?_)
      rw [Prod.mk.injEq]
      constructor <;> omega
    · refine Or.inl ?_
      rw [Prod.mk.injEq]
      constructor <;> omega
    · refine Or.inr (Or.inr (Or.inr ?_))
      rw [Prod.mk.injEq]
      constructor <;> omega
    · refine Or.inr (Or.inr (Or.inl ?_))
      rw [Prod.mk.injEq]
      constructor <;> omega
  · simp only [Bool.and_eq_true, decide_eq_true_eq]
    refine ⟨⟨by omega, by omega, by omega, by omega⟩, ?_⟩
    rw [Int.toNat_natCast, Int.toNat_natCast]
    exact hr

theorem dilateStep_inv (w h : ℕ) (mask : ℕ → ℕ) (s : ℕ)
    (st : List ℕ × List (ℕ × ℕ))
    (hP : strokeInv w h mask s st.1) (hF : frontierInv w h mask s st.2) :
    strokeInv w h mask (s+1) (dilateStep w h mask 0 st).1
      ∧ frontierInv w h mask (s+1) (dilateStep w h mask 0 st).2 := by
  have hmono : strokeInv w h mask (s+1) st.1 := by
    intro p hp
    obtain ⟨h1, h2⟩ := hP p hp
    exact ⟨h1, reachB_mono w h mask (Nat.le_succ s) _ _ h2⟩
  unfold dilateStep
  refine foldl_inv _
    (fun acc => strokeInv w h mask (s+1) acc.1
      ∧ frontierInv w h mask (s+1) acc.2) st.2 (st.1, []) ?_
    ⟨hmono, fun q hq => absurd hq (List.not_mem_nil q)⟩
  intro a fp hfp ha
  obtain ⟨hfx, hfy, hfmask, hfr⟩ := hF fp hfp
  refine foldl_inv _
    (fun acc => strokeInv w h mask (s+1) acc.1
      ∧ frontierInv w h mask (s+1) acc.2) (neighbors4 fp.1 fp.2) a ?_ ha
  intro a2 np hnp ha2
  by_cases hb : 0 ≤ np.1 ∧ np.1 < (w:ℤ) ∧ 0 ≤ np.2 ∧ np.2 < (h:ℤ)
  rotate_left
  · rw [if_neg hb]
    exact ha2
  rw [if_pos hb]
  by_cases hc : a2.1.getD (np.2.toNat * w + np.1.toNat) 0 = 0
      ∧ mask (np.2.toNat * w + np.1.toNat) = 0
  rotate_left
  · rw [if_neg hc]
    exact ha2
  rw [if_pos hc]
  have hxw : np.1.toNat < w := by omega
  have hyh : np.2.toNat < h := by omega
  have hwpos : 0 < w := by omega
  have hreach : reachB w h mask (s+1) np.1.toNat np.2.toNat = true :=
    reachB_neighbor w h mask s fp.1 fp.2 hfx hfy hfr np hnp hb
  have hmod : (np.2.toNat * w + np.1.toNat) % w = np.1.toNat := by
    rw [Nat.mul_comm, Nat.mul_add_mod, Nat.mod_eq_of_lt hxw]
  have hdiv : (np.2.toNat * w + np.1.toNat) / w = np.2.toNat := by
    rw [Nat.mul_comm, Nat.mul_add_div hwpos, Nat.div_eq_of_lt hxw,
      Nat.add_zero]
  constructor
  · intro p hp
    by_cases hpni : p = np.2.toNat * w + np.1.toNat
    · subst hpni
      rw [hmod, hdiv]
      exact ⟨hc.2, hreach⟩
    · rw [getD_set_ne _ _ _ _ hpni] at hp
      exact ha2.1 p hp
  · intro q hq
    rcases List.mem_append.mp hq with hq1 | hq2
    · exact ha2.2 q hq1
    · rcases List.mem_singleton.mp hq2 with rfl
      exact ⟨hxw, hyh, hc.2, hreach⟩

theorem dilateLoop_inv (w h : ℕ) (mask : ℕ → ℕ) :
    ∀ (fuel s : ℕ) (st : List ℕ × List (ℕ × ℕ)),
      strokeInv w h mask s st.1 → frontierInv w h mask s st.2 →
      strokeInv w h mask (s + fuel) (dilateLoop w h mask 0 fuel st)
  | 0, s, st, hP, _ => by
    rw [Nat.add_zero]
    exact hP
  | fuel+1, s, st, hP, hF => by
    have hstep := dilateStep_inv w h mask s st hP hF
    have hrec := dilateLoop_inv w h mask fuel (s+1)
      (dilateStep w h mask 0 st) hstep.1 hstep.2
    rw [show s + (fuel+1) = (s+1) + fuel from by omega]
    exact hrec

theorem outerE_inv (w h : ℕ) (mask : ℕ → ℕ) :
    strokeInv w h mask 1 ((List.range (w*h)).map
      (fun i => if outerEdgeB w h mask i then 1 else 0)) := by
  intro p hp
  rw [show (List.range (w*h)).map (fun i => if outerEdgeB w h mask i then 1 else 0)
      = buildData (w*h) (fun i => if outerEdgeB w h mask i then 1 else 0) from rfl,
    buildData_getD] at hp
  by_cases hlt : p < w*h
  rotate_left
  · rw [if_neg hlt] at hp
    exact absurd rfl hp
  rw [if_pos hlt] at hp
  have hE : outerEdgeB w h mask p = true := by
    cases hEb : outerEdgeB w h mask p
    · rw [hEb] at hp
      simp at hp
    · rfl
  simp only [outerEdgeB, Bool.and_eq_true, decide_eq_true_eq,
    Bool.or_eq_true] at hE
  obtain ⟨⟨hint, hm0⟩, hnb⟩ := hE
  obtain ⟨hx1, hx2, hy1, hy2⟩ := hint
  refine ⟨hm0, ?_⟩
  have hpw : w * (p / w) + p % w = p := Nat.div_add_mod p w
  rw [show (1:ℕ) = 0 + 1 from rfl, reachB_succ]
  simp only [Bool.or_eq_true]
  right
  rw [List.any_eq_true]
  have hwy : w * (p / w) = w * (p / w - 1) + w := by
    rw [← Nat.mul_succ]
    congr 1
    omega
  rcases hnb with ((hn | hn) | hn) | hn
  · refine ⟨(((p % w : ℕ):ℤ) - 1, ((p / w : ℕ):ℤ)), ?_, ?_⟩
    · simp [neighbors4]
    · simp only [Bool.and_eq_true, decide_eq_true_eq]
      refine ⟨⟨by omega, by omega, by omega, by omega⟩, ?_⟩
      have e1 : (((p % w : ℕ):ℤ) - 1).toNat = p % w - 1 := by omega
      have e2 : (((p / w : ℕ):ℤ)).toNat = p / w := by omega
      rw [e1, e2]
      show (mask (p / w * w + (p % w - 1)) == 1) = true
      rw [beq_iff_eq]
      have e3 : p / w * w + (p % w - 1) = p - 1 := by
        rw [Nat.mul_comm]
        omega
      rw [e3, hn]
  · refine ⟨(((p % w : ℕ):ℤ) + 1, ((p / w : ℕ):ℤ)), ?_, ?_⟩
    · simp [neighbors4]
    · simp only [Bool.and_eq_true, decide_eq_true_eq]
      refine ⟨⟨by omega, by omega, by omega, by omega⟩, ?_⟩
      have e1 : (((p % w : ℕ):ℤ) + 1).toNat = p % w + 1 := by omega
      have e2 : (((p / w : ℕ):ℤ)).toNat = p / w := by omega
      rw [e1, e2]
      show (mask (p / w * w + (p % w + 1)) == 1) = true
      rw [beq_iff_eq]
      have e3 : p / w * w + (p % w + 1) = p + 1 := by
        rw [Nat.mul_comm]
        omega
      rw [e3, hn]
  · refine ⟨(((p % w : ℕ):ℤ), ((p / w : ℕ):ℤ) - 1), ?_, ?_⟩
    · simp [neighbors4]
    · simp only [Bool.and_eq_true, decide_eq_true_eq]
      refine ⟨⟨by omega, by omega, by omega, by omega⟩, ?_⟩
      have e1 : (((p % w : ℕ):ℤ)).toNat = p % w := by omega
      have e2 : ((((p / w : ℕ):ℤ)) - 1).toNat = p / w - 1 := by omega
      rw [e1, e2]
      show (mask ((p / w - 1) * w + p % w) == 1) = true
      rw [beq_iff_eq]
      have e3 : (p / w - 1) * w + p % w = p - w := by
        rw [Nat.mul_comm]
        omega
      rw [e3, hn]
  · refine ⟨(((p % w : ℕ):ℤ), ((p / w : ℕ):ℤ) + 1), ?_, ?_⟩
    · simp [neighbors4]
    · simp only [Bool.and_eq_true, decide_eq_true_eq]
      refine ⟨⟨by omega, by omega, by omega, by omega⟩, ?_⟩
      have e1 : (((p % w : ℕ):ℤ)).toNat = p % w := by omega
      have e2 : ((((p / w : ℕ):ℤ)) + 1).toNat = p / w + 1 := by omega
      rw [e1, e2]
      show (mask ((p / w + 1) * w + p % w) == 1) = true
      rw [beq_iff_eq]
      have e3 : (p / w + 1) * w + p % w = p + w := by
        rw [Nat.mul_comm, Nat.mul_add]
        omega
      rw [e3, hn]

theorem initFrontier_inv (w h : ℕ) (mask : ℕ → ℕ) (s : ℕ) (r : List ℕ)
    (hP : strokeInv w h mask s r) :
    frontierInv w h mask s (initFrontier w h r) := by
  intro q hq
  unfold initFrontier at hq
  simp only [List.mem_flatten, List.mem_map, List.mem_filterMap,
    List.mem_range] at hq
  obtain ⟨l, ⟨y, hy, hl⟩, hql⟩ := hq
  subst hl
  rw [List.mem_filterMap] at hql
  obtain ⟨x, hx, hqe⟩ := hql
  rw [List.mem_range] at hx
  have hnz : r.getD (y*w + x) 0 ≠ 0 := by
    by_cases hz : r.getD (y*w + x) 0 ≠ 0
    · exact hz
    · rw [if_neg hz] at hqe
      simp at hqe
  rw [if_pos hnz] at hqe
  cases hqe
  dsimp only
  obtain ⟨hm, hr⟩ := hP (y*w + x) hnz
  have hwpos : 0 < w := by omega
  have hmod : (y*w + x) % w = x := by
    rw [Nat.mul_comm, Nat.mul_add_mod, Nat.mod_eq_of_lt hx]
  have hdiv : (y*w + x) / w = y := by
    rw [Nat.mul_comm, Nat.mul_add_div hwpos, Nat.div_eq_of_lt hx,
      Nat.add_zero]
  rw [hmod, hdiv] at hr
  exact ⟨hx, hy, hm, hr⟩

theorem strokeWrite_containment (w h width' : ℕ) (mask : ℕ → ℕ)
    (d dil : List ℕ) (cr cg cb : ℕ)
    (hdil : strokeInv w h mask width' dil) (j : ℕ)
    (hne : (buildData d.length (fun j' =>
        if dil.getD (j'/4) 0 ≠ 0 ∧ mask (j'/4) = 0
        then match j' % 4 with
          | 0 => cr
          | 1 => cg
          | 2 => cb
          | _ => 255
        else byteAt d j')).getD j 0 ≠ byteAt d j) :
    mask (j/4) = 0 ∧ reachB w h mask width' (j/4 % w) (j/4 / w) = true := by
  rw [buildData_getD] at hne
  by_cases hlt : j < d.length
  · rw [if_pos hlt] at hne
    by_cases hc : dil.getD (j/4) 0 ≠ 0 ∧ mask (j/4) = 0
    · exact ⟨hc.2, (hdil _ hc.1).2⟩
    · rw [if_neg hc] at hne
      exact absurd rfl hne
  · rw [if_neg hlt] at hne
    unfold byteAt at hne
    rw [List.getD_eq_default _ _ (le_of_not_lt hlt)] at hne
    exact absurd rfl hne

/-- C3: with `outer = true` and `inner = false` (and the pixel path taken:
the interior has transparency), every byte `applyStroke` changes belongs to
a pixel that was mask-transparent in the input and lies within `width`
pixels (4-connected graph distance) of a mask-opaque pixel; in particular
no previously-opaque pixel's color changes. -/
theorem applyStroke_outer_containment (R : RenderOps) (c : Canvas)
    (color : String) (width' : ℕ) (hw : 1 ≤ width')
    (ht : hasTransparency c.width c.height (strokeMask c.data) = true)
    (j : ℕ)
    (hne : byteAt (applyStroke R c color width' false true).data j
      ≠ byteAt c.data j) :
    strokeMask c.data (j/4) = 0
      ∧ reachB c.width c.height (strokeMask c.data) width'
          (j/4 % c.width) (j/4 / c.width) = true := by
  have e : applyStroke R c color width' false true
      = if ¬ (hasTransparency c.width c.height (strokeMask c.data) = true)
        then R.strokeRect c color ((width':ℝ) * 2) (-(width':ℝ))
          (-(width':ℝ)) ((c.width:ℝ) + width' * 2) ((c.height:ℝ) + width' * 2)
        else { c with data := buildData c.data.length (fun j' =>
            if (if 1 < width'
                then dilate c.width c.height (strokeMask c.data) 0
                  ((List.range (c.width*c.height)).map (fun i =>
                    if outerEdgeB c.width c.height (strokeMask c.data) i
                    then 1 else 0)) width'
                else (List.range (c.width*c.height)).map (fun i =>
                  if outerEdgeB c.width c.height (strokeMask c.data) i
                  then 1 else 0)).getD (j'/4) 0 ≠ 0
               ∧ strokeMask c.data (j'/4) = 0
            then match j' % 4 with
              | 0 => parseHexByte color 1
              | 1 => parseHexByte color 3
              | 2 => parseHexByte color 5
              | _ => 255
            else byteAt c.data j') } := rfl
  rw [e, if_neg (not_not_intro ht)] at hne
  have hdil : strokeInv c.width c.height (strokeMask c.data) width'
      (if 1 < width'
       then dilate c.width c.height (strokeMask c.data) 0
         ((List.range (c.width*c.height)).map (fun i =>
           if outerEdgeB c.width c.height (strokeMask c.data) i
           then 1 else 0)) width'
       else (List.range (c.width*c.height)).map (fun i =>
         if outerEdgeB c.width c.height (strokeMask c.data) i
         then 1 else 0)) := by
    have h1 := outerE_inv c.width c.height (strokeMask c.data)
    by_cases hwid : 1 < width'
    · rw [if_pos hwid]
      unfold dilate
      have h2 := initFrontier_inv c.width c.height (strokeMask c.data) 1 _ h1
      have h3 := dilateLoop_inv c.width c.height (strokeMask c.data)
        (width' - 1) 1
        (((List.range (c.width*c.height)).map (fun i =>
          if outerEdgeB c.width c.height (strokeMask c.data) i
          then 1 else 0)),
         initFrontier c.width c.height
           ((List.range (c.width*c.height)).map (fun i =>
             if outerEdgeB c.width c.height (strokeMask c.data) i
             then 1 else 0)))
        h1 h2
      rw [show 1 + (width' - 1) = width' from by omega] at h3
      exact h3
    · rw [if_neg hwid]
      rw [show width' = 1 from by omega]
      exact h1
  exact strokeWrite_containment c.width c.height width' (strokeMask c.data)
    c.data _ (parseHexByte color 1) (parseHexByte color 3)
    (parseHexByte color 5) hdil j hne

theorem applyStroke_outer_containment_witness :
    ((1:ℕ) ≤ 1
      ∧ hasTransparency strokeC3x3.width strokeC3x3.height
          (strokeMask strokeC3x3.data) = true
      ∧ byteAt (applyStroke trivialRender strokeC3x3 "#000000" 1 false
          true).data 19 ≠ byteAt strokeC3x3.data 19)
    ∧ (strokeMask strokeC3x3.data (19/4) = 0
       ∧ reachB strokeC3x3.width strokeC3x3.height
           (strokeMask strokeC3x3.data) 1
           (19/4 % strokeC3x3.width) (19/4 / strokeC3x3.width) = true) :=
  ⟨⟨le_refl 1, by decide, by decide⟩,
   applyStroke_outer_containment trivialRender strokeC3x3 "#000000" 1
     (le_refl 1) (by decide) 19 (by decide)⟩

end CV2
